import Mathlib

/-!
# Holiday-PnL accounting core: a shallow embedding

This file embeds the double-entry accounting core of the Holiday-PnL
backend (`app/api/accounting.py`, `app/api/deposits.py`, and the relevant
tables of `app/models/models.py`) and proves the behavioural claims about
it.

Embedding conventions:

* Monetary amounts are Python `Decimal` values read from `Numeric(_, 2)`
  columns.  The code only adds, subtracts and compares them, operations
  under which exact decimals are closed, so money is embedded as `Int`
  (think minor units); every arithmetic fact proved here transfers
  verbatim.
* UUIDs are embedded as `Nat`.  `uuid4()` freshness is modelled by a
  `nextId` counter carried in the database state; the invariant
  `DB.FreshIds` states that already stored rows use smaller ids, which is
  the property uuid4 collisions-freeness provides.
* `date` / `datetime` values are embedded as `Int` (only comparison and
  equality are used); the current date / time / year are passed to the
  operations as explicit parameters where the source calls
  `date.today()` / `datetime.now()`.
* Each FastAPI handler becomes a pure function from its inputs and the
  database state to `Except ApiError α`.  Raising `HTTPException` before
  `db.commit()` leaves the session uncommitted, and `get_db` closes the
  session without committing, so the observable effect of an error is an
  unchanged database: `Except.error` carries no state by construction.
* Python's truthiness-based `x or y` on numbers and strings is embedded
  by the `pyOrI` / `pyOrS` helpers (`0`, `None` and `""` are falsy).
-/

/-- Python `x or d` on an optional number: `None` and `0` both fall back. -/
def pyOrI (x : Option Int) (d : Int) : Int :=
  match x with
  | none => d
  | some v => if v = 0 then d else v

/-- Python `x or d` on an optional string: `None` and `""` both fall back. -/
def pyOrS (x : Option String) (d : Option String) : Option String :=
  match x with
  | none => d
  | some s => if s = "" then d else some s

/-- Python `str(x)` on an optional string (f-string interpolation of a
possibly-`None` value). -/
def pyStr (x : Option String) : String :=
  match x with
  | none => "None"
  | some s => s

/-- `accounts` table row (`models.Account`), restricted to the columns the
accounting endpoints read. -/
structure Account where
  id : Nat
  code : String
  name : String
  account_type : String
  is_active : Bool := true
deriving DecidableEq, Repr

/-- `journal_entries` table row (`models.JournalEntry`). -/
structure JournalEntry where
  id : Nat
  entry_number : String
  entry_date : Int
  source : String
  source_id : Option Nat := none
  description : String
  memo : Option String := none
  is_posted : Bool := false
  is_locked : Bool := false
  is_reversed : Bool := false
  reversed_by_id : Option Nat := none
  posted_at : Option Int := none
deriving DecidableEq, Repr

/-- `journal_lines` table row (`models.JournalLine`). -/
structure JournalLine where
  id : Nat
  journal_entry_id : Nat
  account_id : Nat
  debit : Int := 0
  credit : Int := 0
  property_id : Option Nat := none
  booking_id : Option Nat := none
  expense_id : Option Nat := none
  tenancy_id : Option Nat := none
  vat_treatment : String := "out_of_scope"
  vat_amount : Int := 0
  description : Option String := none
  line_order : Nat := 0
deriving DecidableEq, Repr

/-- `JournalLineCreate` request schema (`accounting_schemas.py`). -/
structure JournalLineCreate where
  account_id : Nat
  debit : Int := 0
  credit : Int := 0
  property_id : Option Nat := none
  booking_id : Option Nat := none
  expense_id : Option Nat := none
  tenancy_id : Option Nat := none
  vat_treatment : String := "out_of_scope"
  vat_amount : Int := 0
  description : Option String := none
deriving DecidableEq, Repr

/-- `JournalEntryCreate` request schema (`accounting_schemas.py`). -/
structure JournalEntryCreate where
  entry_date : Int
  description : String
  memo : Option String := none
  source : String := "manual"
  source_id : Option Nat := none
  lines : List JournalLineCreate
deriving DecidableEq, Repr

/-- `bookings` table row (`models.Booking`), restricted to the columns
`generate_booking_journal` reads.  `gross_revenue` is a stored column
computed by the database. -/
structure Booking where
  id : Nat
  property_id : Nat
  guest_name : Option String := none
  check_in : Int
  check_out : Int
  nights : Option Int := none
  gross_revenue : Option Int := none
  cleaning_fee : Option Int := none
  platform_commission : Option Int := none
deriving DecidableEq, Repr

/-- `expenses` table row (`models.Expense`), restricted to the columns
`generate_expense_journal` reads.  In the database `total_amount` is a
stored computed column `amount + COALESCE(vat_amount, 0)`. -/
structure Expense where
  id : Nat
  property_id : Nat
  expense_date : Int
  vendor : Option String := none
  description : Option String := none
  amount : Int
  vat_amount : Option Int := none
  total_amount : Option Int := none
deriving DecidableEq, Repr

/-- `properties` table row, restricted to what the deposit endpoint reads. -/
structure Property where
  id : Nat
  name : String
deriving DecidableEq, Repr

/-- `tenancies` table row (`models.Tenancy`), restricted to the columns the
deposit endpoints read. -/
structure Tenancy where
  id : Nat
  property_id : Nat
  tenant_name : String
  security_deposit : Option Int := none
  deposit_status : Option String := some "pending"
deriving DecidableEq, Repr

/-- `deposit_transactions` table row (`models.DepositTransaction`). -/
structure DepositTransaction where
  id : Nat
  tenancy_id : Nat
  transaction_type : String
  amount : Int
  transaction_date : Int
  description : Option String := none
  deduction_reason : Option String := none
  journal_entry_id : Option Nat := none
deriving DecidableEq, Repr

/-- `DepositTransactionCreate` request schema (`deposits.py`). -/
structure DepositTransactionCreate where
  tenancy_id : Nat
  transaction_type : String
  amount : Int
  transaction_date : Int
  description : Option String := none
  deduction_reason : Option String := none
deriving DecidableEq, Repr

/-- The relational state the accounting endpoints touch.  `nextId` models
`uuid4()` freshness (see the header comment). -/
structure DB where
  accounts : List Account := []
  entries : List JournalEntry := []
  lines : List JournalLine := []
  bookings : List Booking := []
  expenses : List Expense := []
  properties : List Property := []
  tenancies : List Tenancy := []
  deposit_transactions : List DepositTransaction := []
  nextId : Nat := 0
deriving DecidableEq, Repr

/-- Stored rows never use ids at or above the freshness counter; this is
what `uuid4()` guarantees for the Python code (no id collisions). -/
def DB.FreshIds (db : DB) : Prop :=
  (∀ e ∈ db.entries, e.id < db.nextId) ∧
  (∀ l ∈ db.lines, l.journal_entry_id < db.nextId)

instance (db : DB) : Decidable db.FreshIds := by
  unfold DB.FreshIds; infer_instance

/-- Primary keys of `journal_entries` are unique. -/
def DB.UniqueEntryIds (db : DB) : Prop :=
  db.entries.Pairwise (fun e₁ e₂ => e₁.id ≠ e₂.id)

instance (db : DB) : Decidable db.UniqueEntryIds := by
  unfold DB.UniqueEntryIds; infer_instance

/-- `HTTPException(status_code, detail)`; `serverError` stands for an
uncaught Python exception (HTTP 500). -/
inductive ApiError where
  | notFound (detail : String)
  | badRequest (detail : String)
  | serverError
deriving DecidableEq, Repr

/-- `db.query(JournalEntry).filter(JournalEntry.id == journal_id).first()`. -/
def find_entry (db : DB) (journal_id : Nat) : Option JournalEntry :=
  db.entries.find? (fun e => e.id == journal_id)

/-- The lines of one journal entry (the `JournalEntry.lines` relationship /
the `journal_lines` rows holding its foreign key). -/
def entry_lines (db : DB) (journal_id : Nat) : List JournalLine :=
  db.lines.filter (fun l => l.journal_entry_id == journal_id)

/-- Character-level prefix test, the semantics of SQL `LIKE 'pre%'` and of
`str.startswith` (Python and SQL strings are character sequences, so the
embedding works on `String.data`). -/
def charsIsPrefix : List Char → List Char → Bool
  | [], _ => true
  | _ :: _, [] => false
  | a :: as, b :: bs => if a = b then charsIsPrefix as bs else false

/-- `LIKE 'pre%'` / `startswith` on strings. -/
def strStarts (pre s : String) : Bool :=
  charsIsPrefix pre.data s.data

/-- SQL `SUBSTRING(s FROM n+1)`: drop the first `n` characters. -/
def strDrop (s : String) (n : Nat) : String :=
  String.mk (s.data.drop n)

/-- Decimal digit value of a character, if any. -/
def charDigit? (c : Char) : Option Nat :=
  if c = '0' then some 0 else if c = '1' then some 1 else if c = '2' then some 2
  else if c = '3' then some 3 else if c = '4' then some 4 else if c = '5' then some 5
  else if c = '6' then some 6 else if c = '7' then some 7 else if c = '8' then some 8
  else if c = '9' then some 9 else none

/-- Parse a non-empty all-digit character list. -/
def digitsToNat? : List Char → Nat → Option Nat
  | [], acc => some acc
  | c :: cs, acc =>
    match charDigit? c with
    | some d => digitsToNat? cs (acc * 10 + d)
    | none => none

/-- SQL `CAST(s AS INTEGER)` on a plain unsigned decimal literal; `none`
where the cast would raise. -/
def strToNat? (s : String) : Option Nat :=
  match s.data with
  | [] => none
  | cs => digitsToNat? cs 0

/-- Python `f"{n:05d}"` for a natural number. -/
def pad5 (n : Nat) : String :=
  let s := toString n
  if s.length < 5 then String.mk (List.replicate (5 - s.length) '0') ++ s else s

/-- `generate_journal_number` (accounting.py:25).  The SQL takes
`MAX(CAST(SUBSTRING(entry_number FROM 9) AS INTEGER))` over rows matching
`LIKE 'JE-<year>-%'`; `SUBSTRING FROM 9` is the character-position-9 drop,
embedded literally as `String.drop _ 8`.  A matching row whose suffix is
not numeric would make the SQL `CAST` raise; such rows are skipped here
(`toNat?`), and the theorems about this function assume they are absent.
`MAX` over no rows is `NULL`, and `(result or 0)` turns both `NULL` and
`0` into `0`, which `foldl max 0` reproduces. -/
def generate_journal_number (year : Nat) (db : DB) : String :=
  let pre := "JE-" ++ toString year ++ "-"
  let seqs := db.entries.filterMap (fun e =>
    if strStarts pre e.entry_number then strToNat? (strDrop e.entry_number 8) else none)
  let next_seq := seqs.foldl max 0 + 1
  pre ++ pad5 next_seq

/-- `get_account_by_code` (accounting.py:40). -/
def get_account_by_code (db : DB) (code : String) : Except ApiError Account :=
  match db.accounts.find? (fun a => a.code == code) with
  | some account => .ok account
  | none => .error (.notFound ("Account " ++ code ++ " not found"))

/-- `validate_journal_balance` (accounting.py:48). -/
def validate_journal_balance (lines : List JournalLineCreate) : Bool :=
  let total_debit := (lines.map (fun l => l.debit)).sum
  let total_credit := (lines.map (fun l => l.credit)).sum
  total_debit == total_credit

/-- The `JournalEntry(...)` row `create_journal_entry` constructs. -/
def created_entry (year : Nat) (entry_data : JournalEntryCreate) (db : DB) : JournalEntry :=
  { id := db.nextId
    entry_number := generate_journal_number year db
    entry_date := entry_data.entry_date
    source := entry_data.source
    source_id := entry_data.source_id
    description := entry_data.description
    memo := entry_data.memo
    is_posted := false }

/-- The `JournalLine(...)` rows `create_journal_entry` constructs
(`for i, line_data in enumerate(entry_data.lines)`). -/
def created_lines (entry_data : JournalEntryCreate) (db : DB) : List JournalLine :=
  entry_data.lines.enum.map (fun il =>
    { id := db.nextId + 1 + il.1
      journal_entry_id := db.nextId
      account_id := il.2.account_id
      debit := il.2.debit
      credit := il.2.credit
      property_id := il.2.property_id
      booking_id := il.2.booking_id
      expense_id := il.2.expense_id
      tenancy_id := il.2.tenancy_id
      vat_treatment := il.2.vat_treatment
      vat_amount := il.2.vat_amount
      description := il.2.description
      line_order := il.1 })

/-- `create_journal_entry` (accounting.py:238).  The source verifies each
line's account inside the persistence loop; an `HTTPException` raised
there aborts the request before `db.commit()`, so the session is discarded
and nothing is persisted.  In this pure embedding that check is therefore
performed before the new state is built, which yields the same observable
result (`.error` with the state unchanged).  Fresh ids: the entry takes
`db.nextId` and the `i`-th line `db.nextId + 1 + i`.  Returns the new
state together with the created entry's id. -/
def create_journal_entry (year : Nat) (entry_data : JournalEntryCreate) (db : DB) :
    Except ApiError (DB × Nat) :=
  if !validate_journal_balance entry_data.lines then
    .error (.badRequest "Journal entry must balance (debits = credits)")
  else if entry_data.lines.length < 2 then
    .error (.badRequest "Journal entry must have at least 2 lines")
  else if entry_data.lines.any
      (fun l => (db.accounts.find? (fun a => a.id == l.account_id)).isNone) then
    .error (.badRequest "Account not found")
  else
    .ok ({ db with
           entries := db.entries ++ [created_entry year entry_data db]
           lines := db.lines ++ created_lines entry_data db
           nextId := db.nextId + 1 + entry_data.lines.length }, db.nextId)

/-- The `JournalEntry(...)` row the reversal constructs. -/
def reversal_entry (year : Nat) (today now : Int) (db : DB) (original : JournalEntry) :
    JournalEntry :=
  { id := db.nextId
    entry_number := generate_journal_number year db
    entry_date := today
    source := "adjustment"
    source_id := some original.id
    description := "Reversal of " ++ original.entry_number
    memo := some ("Reversing entry for: " ++ original.description)
    is_posted := true
    posted_at := some now }

/-- The swapped-amount lines of the reversing entry
(`for i, orig_line in enumerate(original.lines)`). -/
def reversal_lines (db : DB) (original : JournalEntry) : List JournalLine :=
  (entry_lines db original.id).enum.map (fun il =>
    { id := db.nextId + 1 + il.1
      journal_entry_id := db.nextId
      account_id := il.2.account_id
      debit := il.2.credit
      credit := il.2.debit
      property_id := il.2.property_id
      booking_id := il.2.booking_id
      expense_id := il.2.expense_id
      tenancy_id := il.2.tenancy_id
      vat_treatment := il.2.vat_treatment
      vat_amount := il.2.vat_amount
      description := some ("Reversal: " ++ (il.2.description.getD ""))
      line_order := il.1 })

/-- `reverse_journal_entry` (accounting.py:312).  `year`, `today` and `now`
stand for the source's `datetime.now().year`, `date.today()` and
`datetime.now()`.  Returns the new state and the reversal's id.  The
original entry's row is updated in place (`original.is_reversed = True`,
`original.reversed_by_id = reversal.id`); both mutations and the new rows
commit together at `db.commit()`. -/
def reverse_journal_entry (year : Nat) (today now : Int) (journal_id : Nat) (db : DB) :
    Except ApiError (DB × Nat) :=
  match find_entry db journal_id with
  | none => .error (.notFound "Journal entry not found")
  | some original =>
    if !original.is_posted then
      .error (.badRequest "Can only reverse posted entries")
    else if original.is_reversed then
      .error (.badRequest "Journal entry already reversed")
    else
      .ok ({ db with
             entries := (db.entries.map (fun e =>
               if e.id == original.id then
                 { e with is_reversed := true, reversed_by_id := some db.nextId }
               else e)) ++ [reversal_entry year today now db original]
             lines := db.lines ++ reversal_lines db original
             nextId := db.nextId + 1 + (entry_lines db original.id).length }, db.nextId)

/-- `delete_journal_entry` (accounting.py:368).  `db.delete(entry)` removes
the row the query returned; the `cascade="all, delete-orphan"` /
`ondelete='CASCADE'` configuration removes every `journal_lines` row
holding the entry's foreign key. -/
def delete_journal_entry (journal_id : Nat) (db : DB) : Except ApiError DB :=
  match find_entry db journal_id with
  | none => .error (.notFound "Journal entry not found")
  | some entry =>
    if entry.is_posted then
      .error (.badRequest "Cannot delete posted entry. Use reverse instead.")
    else if entry.is_locked then
      .error (.badRequest "Cannot delete locked entry")
    else
      .ok { db with
            entries := db.entries.eraseP (fun e => e.id == entry.id)
            lines := db.lines.filter (fun l => !(l.journal_entry_id == entry.id)) }

/-- One row of the trial-balance report (`AccountBalance` schema). -/
structure AccountBalance where
  account_id : Nat
  account_code : String
  account_name : String
  account_type : String
  debit_total : Int
  credit_total : Int
  balance : Int
deriving DecidableEq, Repr

/-- `TrialBalanceResponse` schema. -/
structure TrialBalanceResponse where
  as_of_date : Int
  accounts : List AccountBalance
  total_debits : Int
  total_credits : Int
  is_balanced : Bool
deriving DecidableEq, Repr

/-- The `LEFT JOIN journal_entries je ON je.id = jl.journal_entry_id AND
je.is_posted = TRUE AND je.entry_date <= :as_of_date [AND jl.property_id =
:property_id]` of the trial-balance query: for a given line it yields the
matching entry when every `ON` condition holds, and `none` otherwise.
Being a LEFT join, a `none` result keeps the `(account, line)` row in the
joined relation — it only nulls the entry columns. -/
def trial_balance_joined_entry (db : DB) (as_of_date : Int) (property_id : Option Nat)
    (jl : JournalLine) : Option JournalEntry :=
  db.entries.find? (fun je =>
    je.id == jl.journal_entry_id && je.is_posted && decide (je.entry_date ≤ as_of_date) &&
      (match property_id with
       | some pid => jl.property_id == some pid
       | none => true))

/-- `get_trial_balance` (accounting.py:389).  The aggregation follows the
source SQL: every journal line of an active account enters the join result
exactly once (the entry-side conditions sit in the LEFT JOIN's `ON`
clause, so a failing condition nulls the joined entry instead of dropping
the row), `debit_total`/`credit_total` are `COALESCE(SUM(jl.debit), 0)` /
`COALESCE(SUM(jl.credit), 0)` over those rows, and only accounts with
`debit_total > 0 or credit_total > 0` are reported.  The source defaults
`as_of_date` to `date.today()` when absent; the resolved date is a
parameter here. -/
def get_trial_balance (db : DB) (as_of_date : Int) (property_id : Option Nat) :
    TrialBalanceResponse :=
  let rows := (db.accounts.filter (fun a => a.is_active)).map (fun a =>
    let joined := (db.lines.filter (fun jl => jl.account_id == a.id)).map
      (fun jl => (jl, trial_balance_joined_entry db as_of_date property_id jl))
    let debit_total := (joined.map (fun r => r.1.debit)).sum
    let credit_total := (joined.map (fun r => r.1.credit)).sum
    let balance :=
      if a.account_type == "asset" || a.account_type == "expense" then
        debit_total - credit_total
      else
        credit_total - debit_total
    ({ account_id := a.id
       account_code := a.code
       account_name := a.name
       account_type := a.account_type
       debit_total := debit_total
       credit_total := credit_total
       balance := balance } : AccountBalance))
  let shown := rows.filter (fun r => decide (0 < r.debit_total) || decide (0 < r.credit_total))
  { as_of_date := as_of_date
    accounts := shown
    total_debits := (shown.map (fun r => r.debit_total)).sum
    total_credits := (shown.map (fun r => r.credit_total)).sum
    is_balanced :=
      (shown.map (fun r => r.debit_total)).sum == (shown.map (fun r => r.credit_total)).sum }

/-- The line set `generate_booking_journal` builds before handing off to
`create_journal_entry` (accounting.py:493-547). -/
def booking_journal_lines (acc_receivable acc_revenue acc_cleaning_rev acc_commission : Account)
    (booking : Booking) (booking_id : Nat) : List JournalLineCreate :=
  let gross := pyOrI booking.gross_revenue 0
  let commission := pyOrI booking.platform_commission 0
  let cleaning := pyOrI booking.cleaning_fee 0
  let net_receivable := gross - commission
  let accommodation_rev := gross - cleaning
  [({ account_id := acc_receivable.id
      debit := net_receivable
      credit := 0
      property_id := some booking.property_id
      booking_id := some booking_id
      description := some ("Receivable from " ++ pyStr booking.guest_name) } :
      JournalLineCreate)] ++
  (if 0 < commission then
    [({ account_id := acc_commission.id
        debit := commission
        credit := 0
        property_id := some booking.property_id
        booking_id := some booking_id
        description := some "Platform commission" } : JournalLineCreate)]
   else []) ++
  (if 0 < accommodation_rev then
    [({ account_id := acc_revenue.id
        debit := 0
        credit := accommodation_rev
        property_id := some booking.property_id
        booking_id := some booking_id
        description := some ("Accommodation " ++ toString (pyOrI booking.nights 1) ++ " nights") } :
        JournalLineCreate)]
   else []) ++
  (if 0 < cleaning then
    [({ account_id := acc_cleaning_rev.id
        debit := 0
        credit := cleaning
        property_id := some booking.property_id
        booking_id := some booking_id
        description := some "Cleaning fee" } : JournalLineCreate)]
   else [])

/-- `generate_booking_journal` (accounting.py:470). -/
def generate_booking_journal (year : Nat) (booking_id : Nat) (db : DB) :
    Except ApiError (DB × Nat) := do
  let booking ←
    match db.bookings.find? (fun b => b.id == booking_id) with
    | some b => Except.ok b
    | none => Except.error (.notFound "Booking not found")
  match db.entries.find? (fun je => je.source == "booking" && je.source_id == some booking_id) with
  | some existing =>
    Except.error (.badRequest ("Journal entry already exists: " ++ existing.entry_number))
  | none => do
    let acc_receivable ← get_account_by_code db "1201"
    let acc_revenue ← get_account_by_code db "4101"
    let acc_cleaning_rev ← get_account_by_code db "4102"
    let acc_commission ← get_account_by_code db "5101"
    let entry_data : JournalEntryCreate :=
      { entry_date := booking.check_in
        source := "booking"
        source_id := some booking_id
        description := "Booking: " ++ pyStr booking.guest_name ++ " (" ++
          toString booking.check_in ++ " to " ++ toString booking.check_out ++ ")"
        lines := booking_journal_lines acc_receivable acc_revenue acc_cleaning_rev
          acc_commission booking booking_id }
    create_journal_entry year entry_data db

/-- The `total` used by `generate_expense_journal` (accounting.py:582-584):
`Decimal(str(expense.total_amount or amount + vat))`, where a `NULL` and a
zero `total_amount` both fall back to `amount + vat`. -/
def expense_total (expense : Expense) : Int :=
  let amount := pyOrI (some expense.amount) 0
  let vat := pyOrI expense.vat_amount 0
  pyOrI expense.total_amount (amount + vat)

/-- `generate_expense_journal` (accounting.py:561). -/
def generate_expense_journal (year : Nat) (expense_id : Nat) (db : DB) :
    Except ApiError (DB × Nat) := do
  let expense ←
    match db.expenses.find? (fun e => e.id == expense_id) with
    | some e => Except.ok e
    | none => Except.error (.notFound "Expense not found")
  match db.entries.find? (fun je => je.source == "expense" && je.source_id == some expense_id) with
  | some existing =>
    Except.error (.badRequest ("Journal entry already exists: " ++ existing.entry_number))
  | none => do
    let acc_expense ← get_account_by_code db "5100"
    let acc_payable ← get_account_by_code db "2100"
    let total := expense_total expense
    let entry_data : JournalEntryCreate :=
      { entry_date := expense.expense_date
        source := "expense"
        source_id := some expense_id
        description := "Expense: " ++ pyStr expense.vendor ++ " - " ++
          pyStr (pyOrS expense.description (some ""))
        lines :=
          [({ account_id := acc_expense.id
              debit := total
              credit := 0
              property_id := some expense.property_id
              expense_id := some expense_id
              description := pyOrS expense.description expense.vendor } : JournalLineCreate),
           ({ account_id := acc_payable.id
              debit := 0
              credit := total
              property_id := some expense.property_id
              expense_id := some expense_id
              description := some ("Payable to " ++ pyStr expense.vendor) } : JournalLineCreate)] }
    create_journal_entry year entry_data db

/-- `calculate_deposit_status` (deposits.py:181).  The `deposit_amount`
argument is accepted and, as in the source, never used. -/
def calculate_deposit_status (db : DB) (tenancy_id : Nat) (deposit_amount : Int) : String :=
  let transactions := db.deposit_transactions.filter (fun t => t.tenancy_id == tenancy_id)
  let received := ((transactions.filter (fun t => t.transaction_type == "received")).map
    (fun t => t.amount)).sum
  let deductions := ((transactions.filter (fun t => t.transaction_type == "deduction")).map
    (fun t => t.amount)).sum
  let refunded := ((transactions.filter (fun t => t.transaction_type == "refund")).map
    (fun t => t.amount)).sum
  if received = 0 then "pending"
  else
    let balance := received - deductions - refunded
    if balance ≤ 0 then
      if deductions ≥ received then "forfeited" else "refunded"
    else if 0 < refunded ∨ 0 < deductions then "partially_refunded"
    else "received"

/-- The `JournalEntry(...)` row the deposit endpoint constructs. -/
def deposit_journal_entry (year : Nat) (transaction : DepositTransactionCreate) (db : DB)
    (tenancy : Tenancy) (description : String) : JournalEntry :=
  { id := db.nextId
    entry_number := generate_journal_number year db
    entry_date := transaction.transaction_date
    source := "adjustment"
    source_id := some tenancy.id
    description := description
    is_posted := true }

/-- The state a successful deposit transaction commits: the new posted
journal entry, its lines (one per `journal_lines` element, as
`(account_id, debit, credit, description)`), the `DepositTransaction`
row, and the tenancy's recomputed `deposit_status` — computed, because the
session never flushes the new row before querying (`autoflush=False`),
from the transactions stored *before* this call. -/
def deposit_result (year : Nat) (transaction : DepositTransactionCreate) (db : DB)
    (tenancy : Tenancy) (propertyRow : Property) (description : String)
    (journal_lines : List (Nat × Int × Int × String)) : DB :=
  { db with
    entries := db.entries ++ [deposit_journal_entry year transaction db tenancy description]
    lines := db.lines ++ journal_lines.enum.map (fun il =>
      { id := db.nextId + 1 + il.1
        journal_entry_id := db.nextId
        account_id := il.2.1
        debit := il.2.2.1
        credit := il.2.2.2.1
        property_id := some propertyRow.id
        tenancy_id := some tenancy.id
        description := some il.2.2.2.2
        line_order := il.1 })
    deposit_transactions := db.deposit_transactions ++
      [{ id := db.nextId + 3
         tenancy_id := tenancy.id
         transaction_type := transaction.transaction_type
         amount := transaction.amount
         transaction_date := transaction.transaction_date
         description := transaction.description
         deduction_reason := transaction.deduction_reason
         journal_entry_id := some db.nextId }]
    tenancies := db.tenancies.map (fun t =>
      if t.id == tenancy.id then
        { t with deposit_status := some (calculate_deposit_status db tenancy.id
            (pyOrI tenancy.security_deposit 0)) }
      else t)
    nextId := db.nextId + 4 }

/-- `create_deposit_transaction` (deposits.py:51).  Notes on fidelity:
the journal entry is created with `is_posted=True` but `posted_at` is
never set; a tenancy whose `property_id` has no matching row would raise
`AttributeError` at `property.id` (embedded as `serverError`, with the
session rolled back either way); and the session is configured with
`autoflush=False` and the new `DepositTransaction` is never flushed before
`calculate_deposit_status` queries the table, so the status is computed
from the transactions stored before this call.  No duplicate-journal check
of any kind is performed.  Fresh ids: entry `nextId`, its two lines
`nextId+1`/`nextId+2`, the deposit-transaction row `nextId+3`. -/
def create_deposit_transaction (year : Nat) (transaction : DepositTransactionCreate)
    (current_user_id : Nat) (db : DB) : Except ApiError (DB × String) := do
  let tenancy ←
    match db.tenancies.find? (fun t => t.id == transaction.tenancy_id) with
    | some t => Except.ok t
    | none => Except.error (.notFound "Tenancy not found")
  let property? := db.properties.find? (fun p => p.id == tenancy.property_id)
  let acc_bank ← get_account_by_code db "1102"
  let acc_deposit_held ← get_account_by_code db "2302"
  let acc_deposit_forfeit ← get_account_by_code db "4301"
  let (description, journal_lines) ←
    if transaction.transaction_type == "received" then
      Except.ok ("Security deposit received - " ++ tenancy.tenant_name,
        [(acc_bank.id, transaction.amount, (0 : Int),
          "Deposit received from " ++ tenancy.tenant_name),
         (acc_deposit_held.id, 0, transaction.amount,
          "Security deposit held for " ++ tenancy.tenant_name)])
    else if transaction.transaction_type == "refund" then
      Except.ok ("Security deposit refund - " ++ tenancy.tenant_name,
        [(acc_deposit_held.id, transaction.amount, (0 : Int),
          "Deposit refund to " ++ tenancy.tenant_name),
         (acc_bank.id, 0, transaction.amount, "Deposit refund paid")])
    else if transaction.transaction_type == "deduction" then
      let reason := pyStr (pyOrS transaction.deduction_reason (some "other"))
      Except.ok ("Security deposit deduction (" ++ reason ++ ") - " ++ tenancy.tenant_name,
        [(acc_deposit_held.id, transaction.amount, (0 : Int),
          "Deposit deduction - " ++ reason),
         (acc_deposit_forfeit.id, 0, transaction.amount,
          "Deposit forfeiture income - " ++ reason)])
    else
      Except.error (.badRequest "Invalid transaction type")
  let propertyRow ←
    match property? with
    | some p => Except.ok p
    | none => Except.error .serverError
  Except.ok (deposit_result year transaction db tenancy propertyRow description
    journal_lines, generate_journal_number year db)

/-- The claim's reading of the trial balance's per-account debit total:
sum `debit` over the journal lines that belong to a **posted** entry with
`entry_date <= as_of_date` and, when `property_id` is given, are tagged
with that property.  Written from the claim's words, to be compared with
`get_trial_balance`. -/
def claimed_debit_total (db : DB) (as_of_date : Int) (property_id : Option Nat)
    (account_id : Nat) : Int :=
  ((db.lines.filter (fun jl =>
      jl.account_id == account_id &&
      (db.entries.find? (fun je => je.id == jl.journal_entry_id)).any
        (fun je => je.is_posted && decide (je.entry_date ≤ as_of_date)) &&
      (match property_id with
       | some pid => jl.property_id == some pid
       | none => true))).map (fun jl => jl.debit)).sum

/-- The claim's reading of `nextEntryNumber`: `JE-<year>-<NNNNN>` with
`NNNNN` one more than the maximum sequence number among the stored entry
numbers that start with this year's `JE-<year>-` prefix (the suffix after
the prefix), zero-padded to 5 digits.  Written from the claim's words, to
be compared with `generate_journal_number`. -/
def claimed_next_entry_number (year : Nat) (numbers : List String) : String :=
  let pre := "JE-" ++ toString year ++ "-"
  let seqs := numbers.filterMap (fun s =>
    if strStarts pre s then strToNat? (strDrop s pre.length) else none)
  pre ++ pad5 (seqs.foldl max 0 + 1)

/-!
## Concrete database states

Small states used by the counterexample theorems and the witnesses.
-/

/-- One active asset account, one **unposted** entry, one line of 100 on
that account.  Input for the trial-balance claim. -/
def c1db : DB :=
  { accounts := [{ id := 1, code := "1000", name := "Cash", account_type := "asset" }]
    entries := [{ id := 10, entry_number := "JE-2025-00001", entry_date := 0,
                  source := "manual", description := "draft", is_posted := false }]
    lines := [{ id := 11, journal_entry_id := 10, account_id := 1, debit := 100, credit := 0 }]
    nextId := 20 }

/-- Chart of accounts used by the deposit endpoint. -/
def depositAccounts : List Account :=
  [{ id := 31, code := "1102", name := "CBD Bank", account_type := "asset" },
   { id := 32, code := "2302", name := "Tenant Security Deposits", account_type := "liability" },
   { id := 33, code := "4301", name := "Deposit Forfeitures", account_type := "revenue" }]

/-- A tenancy with its property and the deposit chart of accounts. -/
def c4db : DB :=
  { accounts := depositAccounts
    properties := [{ id := 3, name := "Unit 1" }]
    tenancies := [{ id := 7, property_id := 3, tenant_name := "Alice",
                    security_deposit := some 2000 }]
    nextId := 100 }

/-- `received 2000` deposit-transaction request for tenancy 7. -/
def c4tx : DepositTransactionCreate :=
  { tenancy_id := 7, transaction_type := "received", amount := 2000, transaction_date := 0 }

/-- Runs the deposit rule twice for the same tenancy and counts the journal
entries carrying the `(source='adjustment', source_id=tenancy)` pair. -/
def c4run : Option Nat :=
  ((create_deposit_transaction 2025 c4tx 1 c4db).toOption.bind (fun r =>
    (create_deposit_transaction 2025 c4tx 1 r.1).toOption)).map (fun r =>
      r.1.entries.countP (fun e => e.source == "adjustment" && e.source_id == some 7))

/-- Chart of accounts used by the booking rule. -/
def bookingAccounts : List Account :=
  [{ id := 21, code := "1201", name := "OTA Receivables", account_type := "asset" },
   { id := 22, code := "4101", name := "Nightly Rate Revenue", account_type := "revenue" },
   { id := 23, code := "4102", name := "Cleaning Fee Revenue", account_type := "revenue" },
   { id := 24, code := "5101", name := "Airbnb Commission", account_type := "expense" }]

/-- The scenario booking: `gross_revenue=1000, platform_commission=150,
cleaning_fee=100`. -/
def c7db : DB :=
  { accounts := bookingAccounts
    bookings := [{ id := 50, property_id := 3, guest_name := some "Bob",
                   check_in := 10, check_out := 15, nights := some 5,
                   gross_revenue := some 1000, cleaning_fee := some 100,
                   platform_commission := some 150 }]
    nextId := 100 }

/-- Runs the booking rule and reports the persisted `(account_id, debit,
credit)` line triples with the entry's debit and credit totals. -/
def c7run : Option (List (Nat × Int × Int) × Int × Int) :=
  (generate_booking_journal 2025 50 c7db).toOption.map (fun r =>
    ((entry_lines r.1 r.2).map (fun l => (l.account_id, l.debit, l.credit)),
     ((entry_lines r.1 r.2).map (fun l => l.debit)).sum,
     ((entry_lines r.1 r.2).map (fun l => l.credit)).sum))

/-- A booking with `cleaning_fee > gross_revenue > 0` but a **negative**
`platform_commission` chosen so that the line set balances after the
Accommodation Revenue line is dropped: gross 100, commission −50,
cleaning 150. -/
def c10db : DB :=
  { accounts := bookingAccounts
    bookings := [{ id := 50, property_id := 3, guest_name := some "Bob",
                   check_in := 10, check_out := 15, nights := some 5,
                   gross_revenue := some 100, cleaning_fee := some 150,
                   platform_commission := some (-50) }]
    nextId := 100 }

/-- Runs the booking rule on `c10db` and counts the persisted entries
carrying the `(source='booking', source_id=50)` pair, also reporting the
persisted line triples. -/
def c10run : Option (Nat × List (Nat × Int × Int)) :=
  (generate_booking_journal 2025 50 c10db).toOption.map (fun r =>
    (r.1.entries.countP (fun e => e.source == "booking" && e.source_id == some 50),
     (entry_lines r.1 r.2).map (fun l => (l.account_id, l.debit, l.credit))))

/-- Deposit history for tenancy 7: 100 received, plus one **zero-amount**
deduction transaction. -/
def c8db : DB :=
  { deposit_transactions :=
      [{ id := 1, tenancy_id := 7, transaction_type := "received", amount := 100,
         transaction_date := 0 },
       { id := 2, tenancy_id := 7, transaction_type := "deduction", amount := 0,
         transaction_date := 1 }] }

/-- Entry numbers across two years, used by the numbering witness. -/
def c5db : DB :=
  { entries :=
      [{ id := 1, entry_number := "JE-2025-00007", entry_date := 0,
         source := "manual", description := "a" },
       { id := 2, entry_number := "JE-2024-00042", entry_date := 0,
         source := "manual", description := "b" },
       { id := 3, entry_number := "JE-2025-00003", entry_date := 0,
         source := "manual", description := "c" }]
    nextId := 10 }

/-- Two accounts and nothing else, used by the manual-entry witness. -/
def c2db : DB :=
  { accounts := [{ id := 1, code := "1000", name := "Cash", account_type := "asset" },
                 { id := 2, code := "4000", name := "Revenue", account_type := "revenue" }]
    nextId := 10 }

/-- A balanced two-line manual entry request. -/
def c2ed : JournalEntryCreate :=
  { entry_date := 0
    description := "manual entry"
    lines := [{ account_id := 1, debit := 50 }, { account_id := 2, credit := 50 }] }

/-- A posted two-line entry awaiting reversal. -/
def c3db : DB :=
  { entries := [{ id := 10, entry_number := "JE-2025-00001", entry_date := 0,
                  source := "manual", description := "sale", is_posted := true,
                  posted_at := some 5 }]
    lines := [{ id := 11, journal_entry_id := 10, account_id := 1, debit := 100, credit := 0 },
              { id := 12, journal_entry_id := 10, account_id := 2, debit := 0, credit := 100 }]
    nextId := 20 }

/-- A posted entry (id 10) and an unposted, unlocked entry (id 12) with a
line each, for the delete scenario. -/
def c9db : DB :=
  { entries := [{ id := 10, entry_number := "JE-2025-00001", entry_date := 0,
                  source := "manual", description := "posted", is_posted := true },
                { id := 12, entry_number := "JE-2025-00002", entry_date := 0,
                  source := "manual", description := "draft", is_posted := false }]
    lines := [{ id := 11, journal_entry_id := 10, account_id := 1, debit := 40, credit := 0 },
              { id := 13, journal_entry_id := 12, account_id := 1, debit := 70, credit := 0 },
              { id := 14, journal_entry_id := 12, account_id := 2, debit := 0, credit := 70 }]
    nextId := 20 }

/-- Deposit history for the spec's scenario: 2000 received, then a 500
deduction, for tenancy 7. -/
def c8wdb : DB :=
  { deposit_transactions :=
      [{ id := 1, tenancy_id := 7, transaction_type := "received", amount := 2000,
         transaction_date := 0 },
       { id := 2, tenancy_id := 7, transaction_type := "deduction", amount := 500,
         transaction_date := 1 }] }

/-- Operating-expense and payable accounts plus the scenario expense
(`amount=200, vat_amount=10`, stored computed total 210). -/
def c6db : DB :=
  { accounts := [{ id := 41, code := "5100", name := "Operating Expenses",
                   account_type := "expense" },
                 { id := 42, code := "2100", name := "Accounts Payable",
                   account_type := "liability" }]
    expenses := [{ id := 60, property_id := 3, expense_date := 5, vendor := some "Acme",
                   amount := 200, vat_amount := some 10, total_amount := some 210 }]
    nextId := 100 }

/-- Runs the expense rule on `c6db` and reports the persisted
`(account_id, debit, credit)` line triples. -/
def c6run : Option (List (Nat × Int × Int)) :=
  (generate_expense_journal 2025 60 c6db).toOption.map (fun r =>
    (entry_lines r.1 r.2).map (fun l => (l.account_id, l.debit, l.credit)))

/-- A state exercising every auto-posting rule at once: booking 50 and
expense 60 already have journal entries for their `(source, source_id)`
pairs, booking 51 does not, and tenancy 7 is ready for a deposit. -/
def c4wdb : DB :=
  { accounts :=
      [{ id := 21, code := "1201", name := "OTA Receivables", account_type := "asset" },
       { id := 22, code := "4101", name := "Nightly Rate Revenue",
         account_type := "revenue" },
       { id := 23, code := "4102", name := "Cleaning Fee Revenue",
         account_type := "revenue" },
       { id := 24, code := "5101", name := "Airbnb Commission", account_type := "expense" },
       { id := 41, code := "5100", name := "Operating Expenses", account_type := "expense" },
       { id := 42, code := "2100", name := "Accounts Payable", account_type := "liability" },
       { id := 31, code := "1102", name := "CBD Bank", account_type := "asset" },
       { id := 32, code := "2302", name := "Tenant Security Deposits",
         account_type := "liability" },
       { id := 33, code := "4301", name := "Deposit Forfeitures",
         account_type := "revenue" }]
    entries :=
      [{ id := 1, entry_number := "JE-2025-00001", entry_date := 10, source := "booking",
         source_id := some 50, description := "earlier booking journal" },
       { id := 2, entry_number := "JE-2025-00002", entry_date := 2, source := "expense",
         source_id := some 60, description := "earlier expense journal" }]
    bookings :=
      [{ id := 50, property_id := 3, guest_name := some "Bob", check_in := 10,
         check_out := 15, nights := some 5, gross_revenue := some 1000,
         cleaning_fee := some 100, platform_commission := some 150 },
       { id := 51, property_id := 3, guest_name := some "Eve", check_in := 1,
         check_out := 3, nights := some 2, gross_revenue := some 500,
         cleaning_fee := some 0, platform_commission := some 50 }]
    expenses := [{ id := 60, property_id := 3, expense_date := 2, vendor := some "V",
                   amount := 100, vat_amount := some 0, total_amount := some 100 }]
    properties := [{ id := 3, name := "Unit 1" }]
    tenancies := [{ id := 7, property_id := 3, tenant_name := "Alice",
                    security_deposit := some 2000 }]
    nextId := 100 }

/-- `received 2000` deposit request for tenancy 7 of `c4wdb`. -/
def c4wtx : DepositTransactionCreate :=
  { tenancy_id := 7, transaction_type := "received", amount := 2000, transaction_date := 0 }

/-- The state after the (successful) booking-51 run on `c4wdb`. -/
def c4wdb2 : DB :=
  match generate_booking_journal 2025 51 c4wdb with
  | .ok r => r.1
  | .error _ => {}

/-- The state after the deposit transaction on `c4wdb`. -/
def c4wdbDep : DB :=
  match create_deposit_transaction 2025 c4wtx 1 c4wdb with
  | .ok r => r.1
  | .error _ => {}

/-- The entry number the deposit transaction on `c4wdb` reports. -/
def c4wnum : String :=
  match create_deposit_transaction 2025 c4wtx 1 c4wdb with
  | .ok r => r.2
  | .error _ => ""

/-!
## Claim theorems
-/

/-- Forgetting the index after an enumerate-and-build `map`: the rows built
from `l.enum` project back onto a plain `map` over `l`. -/
theorem map_enum_build {α β γ : Type _} (l : List α) (mk : Nat × α → β) (g : β → γ)
    (g' : α → γ) (h : ∀ i a, g (mk (i, a)) = g' a) :
    (l.enum.map mk).map g = l.map g' := by
  rw [List.map_map]
  have h2 : ∀ x ∈ l.enum, (g ∘ mk) x = (g' ∘ Prod.snd) x := by
    intro x _
    cases x with
    | mk i a => exact h i a
  rw [List.map_congr_left h2, ← List.map_map, List.enum_map_snd]

/-- C1 (code_bug evaluation): on `c1db` — whose only entry is unposted —
the source's trial balance still reports `debit_total = 100` for the
account, while the claimed aggregation (posted entries dated on/before the
as-of date only) yields 0.  The `is_posted`/`entry_date`/property filters
of the source query sit in the `LEFT JOIN ... ON` clause, so they null the
joined entry instead of excluding the line. -/
theorem c1_trial_balance_left_join_bug :
    c1db.entries.all (fun e => !e.is_posted) = true ∧
    ((get_trial_balance c1db 0 none).accounts.map
      (fun r => (r.account_id, r.debit_total, r.credit_total))) = [(1, 100, 0)] ∧
    claimed_debit_total c1db 0 none 1 = 0 := by
  decide

/-- C4 (counterexample): the deposit-transaction rule performs no
idempotency check — running it twice for tenancy 7 succeeds twice and
leaves two journal entries with the `(source='adjustment',
source_id=7)` pair, not at most one. -/
theorem c4_deposit_rule_not_idempotent : c4run = some 2 ∧ 1 < 2 := by
  decide

/-- C8 (counterexample): tenancy 7 has 100 received and one zero-amount
deduction transaction, so its balance is positive and a deduction
occurred; the claim then requires `partially_refunded`, but the code's
condition is on the summed amounts (`deductions > 0`), which is false, and
it returns `received`. -/
theorem c8_zero_amount_deduction_cex :
    (∃ t ∈ c8db.deposit_transactions,
      t.tenancy_id = 7 ∧ (t.transaction_type = "refund" ∨ t.transaction_type = "deduction")) ∧
    ((c8db.deposit_transactions.filter (fun t =>
      t.tenancy_id == 7 && t.transaction_type == "received")).map (fun t => t.amount)).sum = 100 ∧
    calculate_deposit_status c8db 7 0 = "received" ∧ "received" ≠ "partially_refunded" := by
  refine ⟨⟨{ id := 2, tenancy_id := 7, transaction_type := "deduction", amount := 0,
             transaction_date := 1 }, by decide, by decide, Or.inr rfl⟩, by decide, by decide,
    by decide⟩

/-- C10 (counterexample): `c10db`'s booking has `cleaning_fee = 150 >
gross_revenue = 100 > 0`, satisfying the claim's premise, yet with its
negative `platform_commission = -50` the derived lines (receivable debit
150, cleaning credit 150) balance, validation passes, and a journal entry
**is** persisted for the booking — refuting "entry creation therefore
fails the balance validation and no journal entry is persisted". -/
theorem c10_negative_commission_cex :
    (c10db.bookings.map (fun b =>
      (pyOrI b.gross_revenue 0, pyOrI b.cleaning_fee 0))) = [(100, 150)] ∧
    (100 : Int) < 150 ∧ (0 : Int) < 150 ∧
    c10run = some (1, [(21, 150, 0), (23, 0, 150)]) := by
  decide

/-- C5 (confirmed): `generate_journal_number` computes exactly the claimed
`JE-<year>-<NNNNN>` with `NNNNN = max existing sequence for this year's
prefix + 1`, zero-padded to 5 digits, and starts at 1 when the year has no
entries yet (so the sequence resets each calendar year).  The hypotheses
delimit the domain on which the source query is defined: the year renders
as 4 characters (so the source's fixed `SUBSTRING FROM 9` coincides with
dropping the prefix) and every stored number under this year's prefix has
a numeric suffix (otherwise the SQL `CAST` raises). -/
theorem c5_entry_number_spec (year : Nat) (db : DB)
    (hyear : (toString year).length = 4)
    (hnum : ∀ e ∈ db.entries,
      strStarts ("JE-" ++ toString year ++ "-") e.entry_number = true →
      (strToNat? (strDrop e.entry_number 8)).isSome = true) :
    generate_journal_number year db =
      claimed_next_entry_number year (db.entries.map (fun e => e.entry_number)) ∧
    ((∀ e ∈ db.entries,
        strStarts ("JE-" ++ toString year ++ "-") e.entry_number = false) →
      generate_journal_number year db = "JE-" ++ toString year ++ "-" ++ "00001") := by
  have hpre : ("JE-" ++ toString year ++ "-").length = 8 := by
    rw [String.length_append, String.length_append, hyear]
    decide
  constructor
  · simp only [generate_journal_number, claimed_next_entry_number, List.filterMap_map,
      Function.comp, hpre]
    rfl
  · intro h
    simp only [generate_journal_number]
    have hnil : (db.entries.filterMap (fun e =>
        if strStarts ("JE-" ++ toString year ++ "-") e.entry_number then
          strToNat? (strDrop e.entry_number 8) else none)) = [] := by
      rw [List.filterMap_eq_nil]
      intro e he
      simp [h e he]
    rw [hnil]
    congr 1

/-- Witness for `c5_entry_number_spec` at `year = 2025` over `c5db`:
the next number is `JE-2025-00008` (7 is the year's maximum, the 2024
entry is ignored). -/
theorem c5_entry_number_spec_witness :
    (toString 2025).length = 4 ∧
    generate_journal_number 2025 c5db =
      claimed_next_entry_number 2025 (c5db.entries.map (fun e => e.entry_number)) ∧
    generate_journal_number 2025 c5db = "JE-2025-00008" := by
  refine ⟨by decide, (c5_entry_number_spec 2025 c5db (by decide) (by decide)).1, by decide⟩

/-- C2 (confirmed): a `createEntry` request whose debits and credits differ,
or with fewer than 2 lines, or with a line whose account does not resolve,
fails with a validation error (HTTP 400) and — the session never reaching
`commit` — persists nothing; otherwise the entry is persisted unposted,
its stored lines mirror the request's lines, and their debit and credit
totals agree. -/
theorem c2_create_entry_validation (year : Nat) (entry_data : JournalEntryCreate) (db : DB)
    (hfresh : db.FreshIds) :
    (((entry_data.lines.map (fun l => l.debit)).sum ≠
        (entry_data.lines.map (fun l => l.credit)).sum ∨
      entry_data.lines.length < 2 ∨
      (∃ l ∈ entry_data.lines, ∀ a ∈ db.accounts, a.id ≠ l.account_id)) →
      ∃ msg, create_journal_entry year entry_data db = .error (.badRequest msg)) ∧
    ((entry_data.lines.map (fun l => l.debit)).sum =
        (entry_data.lines.map (fun l => l.credit)).sum →
      2 ≤ entry_data.lines.length →
      (∀ l ∈ entry_data.lines, ∃ a ∈ db.accounts, a.id = l.account_id) →
      ∃ db', create_journal_entry year entry_data db = .ok (db', db.nextId) ∧
        (find_entry db' db.nextId).map (fun e => e.is_posted) = some false ∧
        (entry_lines db' db.nextId).map (fun l => (l.account_id, l.debit, l.credit)) =
          entry_data.lines.map (fun l => (l.account_id, l.debit, l.credit)) ∧
        ((entry_lines db' db.nextId).map (fun l => l.debit)).sum =
          ((entry_lines db' db.nextId).map (fun l => l.credit)).sum) := by
  constructor
  · intro h
    by_cases hbal : (entry_data.lines.map (fun l => l.debit)).sum =
        (entry_data.lines.map (fun l => l.credit)).sum
    · by_cases hlen : entry_data.lines.length < 2
      · exact ⟨"Journal entry must have at least 2 lines",
          by simp [create_journal_entry, validate_journal_balance, hbal, hlen]⟩
      · have hmiss : ∃ l ∈ entry_data.lines, ∀ a ∈ db.accounts, a.id ≠ l.account_id := by
          rcases h with h | h | h
          · exact absurd hbal h
          · exact absurd h hlen
          · exact h
        have hany : entry_data.lines.any
            (fun l => (db.accounts.find? (fun a => a.id == l.account_id)).isNone) = true := by
          rw [List.any_eq_true]
          rcases hmiss with ⟨l, hl, hnone⟩
          refine ⟨l, hl, ?_⟩
          have hfin : db.accounts.find? (fun a => a.id == l.account_id) = none :=
            List.find?_eq_none.mpr (fun a ha => by simp [hnone a ha])
          rw [hfin]
          rfl
        exact ⟨"Account not found",
          by simp [create_journal_entry, validate_journal_balance, hbal, hlen, hany]⟩
    · exact ⟨"Journal entry must balance (debits = credits)",
        by simp [create_journal_entry, validate_journal_balance, hbal]⟩
  · intro hbal hlen hacc
    have hlen2 : ¬ entry_data.lines.length < 2 := not_lt.mpr hlen
    have hany : entry_data.lines.any
        (fun l => (db.accounts.find? (fun a => a.id == l.account_id)).isNone) = false := by
      rw [List.any_eq_false]
      intro l hl
      rcases hacc l hl with ⟨a, ha, hid⟩
      have h2 : (db.accounts.find? (fun x => x.id == l.account_id)).isSome = true :=
        List.find?_isSome.mpr ⟨a, ha, by simp [hid]⟩
      rcases Option.isSome_iff_exists.mp h2 with ⟨x, hx⟩
      rw [hx]
      simp
    have hok : create_journal_entry year entry_data db =
        .ok ({ db with
               entries := db.entries ++ [created_entry year entry_data db]
               lines := db.lines ++ created_lines entry_data db
               nextId := db.nextId + 1 + entry_data.lines.length }, db.nextId) := by
      simp [create_journal_entry, validate_journal_balance, hbal, hlen2, hany]
    refine ⟨_, hok, ?_, ?_, ?_⟩
    · have h1 : db.entries.find? (fun e => e.id == db.nextId) = none :=
        List.find?_eq_none.mpr (fun e he => by simp [Nat.ne_of_lt (hfresh.1 e he)])
      show ((db.entries ++ [created_entry year entry_data db]).find?
        (fun e => e.id == db.nextId)).map (fun e => e.is_posted) = some false
      rw [List.find?_append, h1, Option.none_or,
        List.find?_cons_of_pos _ (by simp [created_entry])]
      rfl
    · have hel : entry_lines { db with
          entries := db.entries ++ [created_entry year entry_data db]
          lines := db.lines ++ created_lines entry_data db
          nextId := db.nextId + 1 + entry_data.lines.length } db.nextId =
          created_lines entry_data db := by
        show (db.lines ++ created_lines entry_data db).filter
          (fun l => l.journal_entry_id == db.nextId) = created_lines entry_data db
        rw [List.filter_append]
        have h1 : db.lines.filter (fun l => l.journal_entry_id == db.nextId) = [] :=
          List.filter_eq_nil.mpr (fun l hl => by simp [Nat.ne_of_lt (hfresh.2 l hl)])
        have h2 : (created_lines entry_data db).filter
            (fun l => l.journal_entry_id == db.nextId) = created_lines entry_data db := by
          refine List.filter_eq_self.mpr (fun l hl => ?_)
          simp only [created_lines, List.mem_map] at hl
          rcases hl with ⟨il, _, rfl⟩
          simp
        rw [h1, h2, List.nil_append]
      rw [hel]
      exact map_enum_build _ _ _ _ (fun i a => rfl)
    · have hel : entry_lines { db with
          entries := db.entries ++ [created_entry year entry_data db]
          lines := db.lines ++ created_lines entry_data db
          nextId := db.nextId + 1 + entry_data.lines.length } db.nextId =
          created_lines entry_data db := by
        show (db.lines ++ created_lines entry_data db).filter
          (fun l => l.journal_entry_id == db.nextId) = created_lines entry_data db
        rw [List.filter_append]
        have h1 : db.lines.filter (fun l => l.journal_entry_id == db.nextId) = [] :=
          List.filter_eq_nil.mpr (fun l hl => by simp [Nat.ne_of_lt (hfresh.2 l hl)])
        have h2 : (created_lines entry_data db).filter
            (fun l => l.journal_entry_id == db.nextId) = created_lines entry_data db := by
          refine List.filter_eq_self.mpr (fun l hl => ?_)
          simp only [created_lines, List.mem_map] at hl
          rcases hl with ⟨il, _, rfl⟩
          simp
        rw [h1, h2, List.nil_append]
      rw [hel]
      have hd : (created_lines entry_data db).map (fun l => l.debit) =
          entry_data.lines.map (fun l => l.debit) :=
        map_enum_build _ _ _ _ (fun i a => rfl)
      have hc : (created_lines entry_data db).map (fun l => l.credit) =
          entry_data.lines.map (fun l => l.credit) :=
        map_enum_build _ _ _ _ (fun i a => rfl)
      rw [hd, hc]
      exact hbal

/-- Witness for `c2_create_entry_validation`: a balanced two-line request
over `c2db` persists unposted with matching lines, and the same request
emptied of lines is rejected. -/
theorem c2_create_entry_validation_witness :
    c2db.FreshIds ∧
    (∃ db', create_journal_entry 2025 c2ed c2db = .ok (db', c2db.nextId) ∧
      (find_entry db' c2db.nextId).map (fun e => e.is_posted) = some false ∧
      (entry_lines db' c2db.nextId).map (fun l => (l.account_id, l.debit, l.credit)) =
        c2ed.lines.map (fun l => (l.account_id, l.debit, l.credit)) ∧
      ((entry_lines db' c2db.nextId).map (fun l => l.debit)).sum =
        ((entry_lines db' c2db.nextId).map (fun l => l.credit)).sum) ∧
    (∃ msg, create_journal_entry 2025 { c2ed with lines := [] } c2db =
      .error (.badRequest msg)) := by
  refine ⟨by decide,
    (c2_create_entry_validation 2025 c2ed c2db (by decide)).2 (by decide) (by decide)
      (by decide),
    (c2_create_entry_validation 2025 { c2ed with lines := [] } c2db (by decide)).1
      (Or.inr (Or.inl (by decide)))⟩

/-- C3 (confirmed): reversing a posted, not-yet-reversed entry creates a new
immediately-posted entry under `source='adjustment'` whose `source_id`
points back at the original, dated today, described as
`"Reversal of <entry_number>"`, whose lines carry the original lines'
amounts with debit and credit swapped (same accounts, same order); the
original ends up flagged `is_reversed` with `reversed_by_id` set to the
reversal's id.  On an unposted or already-reversed entry the call fails
with an HTTP 400 state conflict, mutating nothing. -/
theorem c3_reverse_entry (year : Nat) (today now : Int) (jid : Nat) (db : DB)
    (e : JournalEntry) (hfresh : db.FreshIds) (hfind : find_entry db jid = some e) :
    (e.is_posted = true → e.is_reversed = false →
      ∃ db', reverse_journal_entry year today now jid db = .ok (db', db.nextId) ∧
        find_entry db' db.nextId = some
          { id := db.nextId
            entry_number := generate_journal_number year db
            entry_date := today
            source := "adjustment"
            source_id := some e.id
            description := "Reversal of " ++ e.entry_number
            memo := some ("Reversing entry for: " ++ e.description)
            is_posted := true
            is_locked := false
            is_reversed := false
            reversed_by_id := none
            posted_at := some now } ∧
        (entry_lines db' db.nextId).map (fun l => (l.debit, l.credit)) =
          (entry_lines db jid).map (fun l => (l.credit, l.debit)) ∧
        (entry_lines db' db.nextId).map (fun l => l.account_id) =
          (entry_lines db jid).map (fun l => l.account_id) ∧
        find_entry db' jid = some
          { e with is_reversed := true, reversed_by_id := some db.nextId }) ∧
    (e.is_posted = false ∨ e.is_reversed = true →
      ∃ msg, reverse_journal_entry year today now jid db = .error (.badRequest msg)) := by
  have heid : e.id = jid := by
    have h := List.find?_some hfind
    simpa using h
  constructor
  · intro hp hr
    have hok : reverse_journal_entry year today now jid db =
        .ok ({ db with
               entries := (db.entries.map (fun x =>
                 if x.id == e.id then
                   { x with is_reversed := true, reversed_by_id := some db.nextId }
                 else x)) ++ [reversal_entry year today now db e]
               lines := db.lines ++ reversal_lines db e
               nextId := db.nextId + 1 + (entry_lines db e.id).length }, db.nextId) := by
      simp [reverse_journal_entry, hfind, hp, hr]
    refine ⟨_, hok, ?_, ?_, ?_, ?_⟩
    · show ((db.entries.map (fun x =>
          if x.id == e.id then
            { x with is_reversed := true, reversed_by_id := some db.nextId }
          else x)) ++ [reversal_entry year today now db e]).find?
            (fun x => x.id == db.nextId) = _
      have h1 : (db.entries.map (fun x =>
          if x.id == e.id then
            { x with is_reversed := true, reversed_by_id := some db.nextId }
          else x)).find? (fun x => x.id == db.nextId) = none := by
        apply List.find?_eq_none.mpr
        intro x hx
        rcases List.mem_map.mp hx with ⟨y, hy, rfl⟩
        have hyid : (if y.id == e.id then
            ({ y with is_reversed := true, reversed_by_id := some db.nextId } : JournalEntry)
          else y).id = y.id := by
          split <;> rfl
        rw [hyid]
        simp [Nat.ne_of_lt (hfresh.1 y hy)]
      rw [List.find?_append, h1, Option.none_or,
        List.find?_cons_of_pos _ (by simp [reversal_entry])]
      rfl
    · show (entry_lines _ db.nextId).map (fun l => (l.debit, l.credit)) = _
      have hel : (db.lines ++ reversal_lines db e).filter
          (fun l => l.journal_entry_id == db.nextId) = reversal_lines db e := by
        rw [List.filter_append]
        have h1 : db.lines.filter (fun l => l.journal_entry_id == db.nextId) = [] :=
          List.filter_eq_nil.mpr (fun l hl => by simp [Nat.ne_of_lt (hfresh.2 l hl)])
        have h2 : (reversal_lines db e).filter
            (fun l => l.journal_entry_id == db.nextId) = reversal_lines db e := by
          refine List.filter_eq_self.mpr (fun l hl => ?_)
          simp only [reversal_lines, List.mem_map] at hl
          rcases hl with ⟨il, _, rfl⟩
          simp
        rw [h1, h2, List.nil_append]
      show ((db.lines ++ reversal_lines db e).filter
          (fun l => l.journal_entry_id == db.nextId)).map (fun l => (l.debit, l.credit)) = _
      rw [hel, ← heid]
      exact map_enum_build _ _ _ _ (fun i a => rfl)
    · have hel : (db.lines ++ reversal_lines db e).filter
          (fun l => l.journal_entry_id == db.nextId) = reversal_lines db e := by
        rw [List.filter_append]
        have h1 : db.lines.filter (fun l => l.journal_entry_id == db.nextId) = [] :=
          List.filter_eq_nil.mpr (fun l hl => by simp [Nat.ne_of_lt (hfresh.2 l hl)])
        have h2 : (reversal_lines db e).filter
            (fun l => l.journal_entry_id == db.nextId) = reversal_lines db e := by
          refine List.filter_eq_self.mpr (fun l hl => ?_)
          simp only [reversal_lines, List.mem_map] at hl
          rcases hl with ⟨il, _, rfl⟩
          simp
        rw [h1, h2, List.nil_append]
      show ((db.lines ++ reversal_lines db e).filter
          (fun l => l.journal_entry_id == db.nextId)).map (fun l => l.account_id) = _
      rw [hel, ← heid]
      exact map_enum_build _ _ _ _ (fun i a => rfl)
    · show ((db.entries.map (fun x =>
          if x.id == e.id then
            { x with is_reversed := true, reversed_by_id := some db.nextId }
          else x)) ++ [reversal_entry year today now db e]).find?
            (fun x => x.id == jid) = _
      have hcomp : ((fun x : JournalEntry => x.id == jid) ∘ (fun x =>
          if x.id == e.id then
            ({ x with is_reversed := true, reversed_by_id := some db.nextId } : JournalEntry)
          else x)) = (fun x : JournalEntry => x.id == jid) := by
        funext y
        have hyid : (if y.id == e.id then
            ({ y with is_reversed := true, reversed_by_id := some db.nextId } : JournalEntry)
          else y).id = y.id := by
          split <;> rfl
        simp only [Function.comp]
        rw [hyid]
      rw [List.find?_append, List.find?_map, hcomp]
      unfold find_entry at hfind
      rw [hfind]
      have hife : (if e.id == e.id then
          ({ e with is_reversed := true, reversed_by_id := some db.nextId } : JournalEntry)
        else e) = { e with is_reversed := true, reversed_by_id := some db.nextId } := by
        simp
      simp [hife]
  · intro h
    by_cases hp : e.is_posted
    · rcases h with h | h
      · exact absurd hp (by simp [h])
      · exact ⟨"Journal entry already reversed",
          by simp [reverse_journal_entry, hfind, hp, h]⟩
    · exact ⟨"Can only reverse posted entries", by simp [reverse_journal_entry, hfind, hp]⟩

/-- Witness for `c3_reverse_entry` on `c3db`: reversing the posted entry 10
on day 7 (clock 8) yields entry 20, numbered next in sequence, posted,
with the swapped lines, and flags the original. -/
theorem c3_reverse_entry_witness :
    c3db.FreshIds ∧
    (∃ db', reverse_journal_entry 2025 7 8 10 c3db = .ok (db', 20) ∧
      find_entry db' 20 = some
        { id := 20
          entry_number := "JE-2025-00002"
          entry_date := 7
          source := "adjustment"
          source_id := some 10
          description := "Reversal of JE-2025-00001"
          memo := some ("Reversing entry for: sale")
          is_posted := true
          is_locked := false
          is_reversed := false
          reversed_by_id := none
          posted_at := some 8 } ∧
      (entry_lines db' 20).map (fun l => (l.debit, l.credit)) =
        (entry_lines c3db 10).map (fun l => (l.credit, l.debit)) ∧
      (entry_lines db' 20).map (fun l => l.account_id) =
        (entry_lines c3db 10).map (fun l => l.account_id) ∧
      find_entry db' 10 = some
        { id := 10
          entry_number := "JE-2025-00001"
          entry_date := 0
          source := "manual"
          source_id := none
          description := "sale"
          memo := none
          is_posted := true
          is_locked := false
          is_reversed := true
          reversed_by_id := some 20
          posted_at := some 5 }) :=
  ⟨by decide,
   (c3_reverse_entry 2025 7 8 10 c3db
      { id := 10, entry_number := "JE-2025-00001", entry_date := 0,
        source := "manual", description := "sale", is_posted := true,
        posted_at := some 5 }
      (by decide) (by decide)).1 rfl rfl⟩

/-- With pairwise-distinct primary keys, erasing the first id match is the
same as filtering the id out (there is at most one match). -/
theorem eraseP_eq_filter_of_unique (l : List JournalEntry) (k : Nat)
    (h : l.Pairwise (fun a b => a.id ≠ b.id)) :
    l.eraseP (fun x => x.id == k) = l.filter (fun x => !(x.id == k)) := by
  induction l with
  | nil => rfl
  | cons a l ih =>
    rcases List.pairwise_cons.mp h with ⟨ha, hl⟩
    by_cases hak : a.id = k
    · have hbeq : (a.id == k) = true := by simp [hak]
      rw [List.eraseP_cons, List.filter_cons]
      simp only [hbeq, cond_true, Bool.not_true, if_neg (by simp : ¬ (false = true))]
      exact (List.filter_eq_self.mpr (fun x hx => by
        have hne : a.id ≠ x.id := ha x hx
        simp only [Bool.not_eq_true']
        simp only [beq_eq_false_iff_ne, ne_eq]
        intro hxk
        exact hne (by rw [hak, hxk]))).symm
    · have hbeq : (a.id == k) = false := by simp [hak]
      rw [List.eraseP_cons, List.filter_cons]
      simp only [hbeq, cond_false, Bool.not_false, if_true]
      rw [ih hl]

/-- C9 (confirmed): deleting a posted entry fails with an HTTP 400 state
conflict, as does deleting a locked one, with no mutation either way; an
unposted, unlocked entry is removed together with every one of its journal
lines (cascade), while unrelated entries and lines survive. -/
theorem c9_delete_entry (jid : Nat) (db : DB) (e : JournalEntry)
    (hfind : find_entry db jid = some e) (huniq : db.UniqueEntryIds) :
    (e.is_posted = true → ∃ msg, delete_journal_entry jid db = .error (.badRequest msg)) ∧
    (e.is_posted = false → e.is_locked = true →
      ∃ msg, delete_journal_entry jid db = .error (.badRequest msg)) ∧
    (e.is_posted = false → e.is_locked = false →
      ∃ db', delete_journal_entry jid db = .ok db' ∧
        find_entry db' jid = none ∧
        (∀ l ∈ db'.lines, l.journal_entry_id ≠ jid) ∧
        (∀ l ∈ db.lines, l.journal_entry_id ≠ jid → l ∈ db'.lines) ∧
        (∀ x ∈ db.entries, x.id ≠ jid → x ∈ db'.entries)) := by
  have heid : e.id = jid := by
    have h := List.find?_some hfind
    simpa using h
  unfold DB.UniqueEntryIds at huniq
  refine ⟨?_, ?_, ?_⟩
  · intro hp
    exact ⟨"Cannot delete posted entry. Use reverse instead.",
      by simp [delete_journal_entry, hfind, hp]⟩
  · intro hp hlk
    exact ⟨"Cannot delete locked entry", by simp [delete_journal_entry, hfind, hp, hlk]⟩
  · intro hp hlk
    have hok : delete_journal_entry jid db =
        .ok { db with
              entries := db.entries.eraseP (fun x => x.id == e.id)
              lines := db.lines.filter (fun l => !(l.journal_entry_id == e.id)) } := by
      simp [delete_journal_entry, hfind, hp, hlk]
    refine ⟨_, hok, ?_, ?_, ?_, ?_⟩
    · show (db.entries.eraseP (fun x => x.id == e.id)).find? (fun x => x.id == jid) = none
      rw [eraseP_eq_filter_of_unique _ _ huniq]
      apply List.find?_eq_none.mpr
      intro x hx
      have h2 := (List.mem_filter.mp hx).2
      simp only [Bool.not_eq_true', beq_eq_false_iff_ne, ne_eq] at h2
      simp only [beq_iff_eq]
      rw [← heid]
      exact h2
    · intro l hl
      have h2 := (List.mem_filter.mp hl).2
      simp only [Bool.not_eq_true', beq_eq_false_iff_ne, ne_eq] at h2
      rw [← heid]
      exact h2
    · intro l hl hne
      refine List.mem_filter.mpr ⟨hl, ?_⟩
      simp only [Bool.not_eq_true', beq_eq_false_iff_ne, ne_eq]
      rw [heid]
      exact hne
    · intro x hx hne
      rw [eraseP_eq_filter_of_unique _ _ huniq]
      refine List.mem_filter.mpr ⟨hx, ?_⟩
      simp only [Bool.not_eq_true', beq_eq_false_iff_ne, ne_eq]
      rw [heid]
      exact hne

/-- Witness for `c9_delete_entry` on `c9db`: the posted entry 10 cannot be
deleted; the unposted entry 12 is deleted with both of its lines while
entry 10 and its line remain. -/
theorem c9_delete_entry_witness :
    c9db.UniqueEntryIds ∧
    (∃ msg, delete_journal_entry 10 c9db = .error (.badRequest msg)) ∧
    (∃ db', delete_journal_entry 12 c9db = .ok db' ∧
      find_entry db' 12 = none ∧
      (∀ l ∈ db'.lines, l.journal_entry_id ≠ 12) ∧
      (∀ l ∈ c9db.lines, l.journal_entry_id ≠ 12 → l ∈ db'.lines) ∧
      (∀ x ∈ c9db.entries, x.id ≠ 12 → x ∈ db'.entries)) :=
  ⟨by decide,
   (c9_delete_entry 10 c9db
      { id := 10, entry_number := "JE-2025-00001", entry_date := 0,
        source := "manual", description := "posted", is_posted := true }
      (by decide) (by decide)).1 rfl,
   (c9_delete_entry 12 c9db
      { id := 12, entry_number := "JE-2025-00002", entry_date := 0,
        source := "manual", description := "draft", is_posted := false }
      (by decide) (by decide)).2.2 rfl rfl⟩

/-- C8 (amended, proved): with `received`/`deductions`/`refunded` the summed
amounts of the tenancy's deposit transactions by type and `balance =
received - deductions - refunded`, the derived status is `pending` when
`received = 0`; `forfeited` when `balance ≤ 0` and `deductions ≥
received`; `refunded` when `balance ≤ 0` and `deductions < received`;
`partially_refunded` when `balance > 0` and the refunded or deducted
**total** is positive (the amendment: the code tests the summed amounts,
not the existence of a refund/deduction transaction); else `received`. -/
theorem c8_deposit_status_amended (db : DB) (tid : Nat) (da : Int)
    (received deductions refunded : Int)
    (hrec : received = (((db.deposit_transactions.filter
      (fun t => t.tenancy_id == tid)).filter
      (fun t => t.transaction_type == "received")).map (fun t => t.amount)).sum)
    (hded : deductions = (((db.deposit_transactions.filter
      (fun t => t.tenancy_id == tid)).filter
      (fun t => t.transaction_type == "deduction")).map (fun t => t.amount)).sum)
    (href : refunded = (((db.deposit_transactions.filter
      (fun t => t.tenancy_id == tid)).filter
      (fun t => t.transaction_type == "refund")).map (fun t => t.amount)).sum) :
    (received = 0 → calculate_deposit_status db tid da = "pending") ∧
    (received ≠ 0 → received - deductions - refunded ≤ 0 → deductions ≥ received →
      calculate_deposit_status db tid da = "forfeited") ∧
    (received ≠ 0 → received - deductions - refunded ≤ 0 → ¬ deductions ≥ received →
      calculate_deposit_status db tid da = "refunded") ∧
    (received ≠ 0 → 0 < received - deductions - refunded →
      (0 < refunded ∨ 0 < deductions) →
      calculate_deposit_status db tid da = "partially_refunded") ∧
    (received ≠ 0 → 0 < received - deductions - refunded →
      ¬ (0 < refunded ∨ 0 < deductions) →
      calculate_deposit_status db tid da = "received") := by
  subst hrec
  subst hded
  subst href
  refine ⟨?_, ?_, ?_, ?_, ?_⟩
  · intro h0
    simp only [calculate_deposit_status, if_pos h0]
  · intro h0 hble hge
    simp only [calculate_deposit_status, if_neg h0, if_pos hble, if_pos hge]
  · intro h0 hble hge
    simp only [calculate_deposit_status, if_neg h0, if_pos hble, if_neg hge]
  · intro h0 hbgt hpr
    simp only [calculate_deposit_status, if_neg h0, if_neg (not_le.mpr hbgt), if_pos hpr]
  · intro h0 hbgt hpr
    simp only [calculate_deposit_status, if_neg h0, if_neg (not_le.mpr hbgt), if_neg hpr]

/-- Witness for `c8_deposit_status_amended`: the spec scenario — 2000
received, 500 deducted, nothing refunded — yields `partially_refunded`. -/
theorem c8_deposit_status_amended_witness :
    (2000 : Int) ≠ 0 ∧ (0 : Int) < 2000 - 500 - 0 ∧ ((0 : Int) < 500) ∧
    calculate_deposit_status c8wdb 7 2000 = "partially_refunded" :=
  ⟨by decide, by decide, by decide,
   (c8_deposit_status_amended c8wdb 7 2000 2000 500 0
      (by decide) (by decide) (by decide)).2.2.2.1
     (by decide) (by decide) (Or.inr (by decide))⟩

/-- Python `x or 0` on a present value is the value itself. -/
theorem pyOrI_some_zero (a : Int) : pyOrI (some a) 0 = a := by
  simp only [pyOrI]
  split <;> omega

/-- Under its hypotheses, the booking rule is exactly `create_journal_entry`
applied to the derived entry data. -/
theorem generate_booking_journal_eq (year bid : Nat) (db : DB) (b : Booking)
    (aRecv aRev aClean aComm : Account)
    (hb : db.bookings.find? (fun x => x.id == bid) = some b)
    (hdup : db.entries.find?
      (fun je => je.source == "booking" && je.source_id == some bid) = none)
    (hRecv : get_account_by_code db "1201" = .ok aRecv)
    (hRev : get_account_by_code db "4101" = .ok aRev)
    (hClean : get_account_by_code db "4102" = .ok aClean)
    (hComm : get_account_by_code db "5101" = .ok aComm) :
    generate_booking_journal year bid db =
      create_journal_entry year
        { entry_date := b.check_in
          source := "booking"
          source_id := some bid
          description := "Booking: " ++ pyStr b.guest_name ++ " (" ++
            toString b.check_in ++ " to " ++ toString b.check_out ++ ")"
          lines := booking_journal_lines aRecv aRev aClean aComm b bid } db := by
  simp only [generate_booking_journal, hb, hdup, hRecv, hRev, hClean, hComm]
  rfl

/-- Under its hypotheses, the expense rule is exactly `create_journal_entry`
applied to the derived two-line entry data. -/
theorem generate_expense_journal_eq (year eid : Nat) (db : DB) (ex : Expense)
    (aExp aPay : Account)
    (hex : db.expenses.find? (fun x => x.id == eid) = some ex)
    (hdup : db.entries.find?
      (fun je => je.source == "expense" && je.source_id == some eid) = none)
    (hExp : get_account_by_code db "5100" = .ok aExp)
    (hPay : get_account_by_code db "2100" = .ok aPay) :
    generate_expense_journal year eid db =
      create_journal_entry year
        { entry_date := ex.expense_date
          source := "expense"
          source_id := some eid
          description := "Expense: " ++ pyStr ex.vendor ++ " - " ++
            pyStr (pyOrS ex.description (some ""))
          lines :=
            [({ account_id := aExp.id
                debit := expense_total ex
                credit := 0
                property_id := some ex.property_id
                expense_id := some eid
                description := pyOrS ex.description ex.vendor } : JournalLineCreate),
             ({ account_id := aPay.id
                debit := 0
                credit := expense_total ex
                property_id := some ex.property_id
                expense_id := some eid
                description := some ("Payable to " ++ pyStr ex.vendor) } :
                JournalLineCreate)] } db := by
  simp only [generate_expense_journal, hex, hdup, hExp, hPay]
  rfl

/-- C6 (confirmed): on any expense row satisfying the database's computed
column (`total_amount = amount + COALESCE(vat_amount, 0)`, or not yet
materialised), the expense rule derives exactly two lines over `total =
amount + vat_amount` — a debit of `total` to the Operating Expense account
and a credit of `total` to the Accounts Payable account — dated on the
expense date with `source='expense'` and `source_id` the expense id. -/
theorem c6_expense_journal (year eid : Nat) (db : DB) (ex : Expense)
    (aExp aPay : Account)
    (hex : db.expenses.find? (fun x => x.id == eid) = some ex)
    (hdup : db.entries.find?
      (fun je => je.source == "expense" && je.source_id == some eid) = none)
    (hExp : get_account_by_code db "5100" = .ok aExp)
    (hPay : get_account_by_code db "2100" = .ok aPay)
    (hstored : ex.total_amount = none ∨
      ex.total_amount = some (ex.amount + pyOrI ex.vat_amount 0)) :
    expense_total ex = ex.amount + pyOrI ex.vat_amount 0 ∧
    generate_expense_journal year eid db =
      create_journal_entry year
        { entry_date := ex.expense_date
          source := "expense"
          source_id := some eid
          description := "Expense: " ++ pyStr ex.vendor ++ " - " ++
            pyStr (pyOrS ex.description (some ""))
          lines :=
            [({ account_id := aExp.id
                debit := ex.amount + pyOrI ex.vat_amount 0
                credit := 0
                property_id := some ex.property_id
                expense_id := some eid
                description := pyOrS ex.description ex.vendor } : JournalLineCreate),
             ({ account_id := aPay.id
                debit := 0
                credit := ex.amount + pyOrI ex.vat_amount 0
                property_id := some ex.property_id
                expense_id := some eid
                description := some ("Payable to " ++ pyStr ex.vendor) } :
                JournalLineCreate)] } db := by
  have htot : expense_total ex = ex.amount + pyOrI ex.vat_amount 0 := by
    rcases hstored with h | h
    · simp only [expense_total]
      rw [h, pyOrI_some_zero]
      rfl
    · simp only [expense_total]
      rw [h, pyOrI_some_zero]
      generalize ex.amount + pyOrI ex.vat_amount 0 = v
      simp only [pyOrI]
      split <;> rfl
  have heq := generate_expense_journal_eq year eid db ex aExp aPay hex hdup hExp hPay
  rw [htot] at heq
  exact ⟨htot, heq⟩

/-- Witness for `c6_expense_journal`: the scenario expense (200 + 10 VAT)
posts a 210 debit to Operating Expenses and a 210 credit to Accounts
Payable. -/
theorem c6_expense_journal_witness :
    expense_total { id := 60, property_id := 3, expense_date := 5, vendor := some "Acme",
                    amount := 200, vat_amount := some 10, total_amount := some 210 } = 210 ∧
    c6run = some [(41, 210, 0), (42, 0, 210)] :=
  ⟨(c6_expense_journal 2025 60 c6db
      { id := 60, property_id := 3, expense_date := 5, vendor := some "Acme",
        amount := 200, vat_amount := some 10, total_amount := some 210 }
      { id := 41, code := "5100", name := "Operating Expenses", account_type := "expense" }
      { id := 42, code := "2100", name := "Accounts Payable", account_type := "liability" }
      (by decide) (by decide) rfl rfl (Or.inr (by decide))).1,
   by decide⟩

/-- C7 (confirmed): the booking rule derives exactly the claimed lines — an
unconditional debit of `gross_revenue - platform_commission` to the
Receivable account, a debit of `platform_commission` to the Commission
Expense account when positive, a credit of `gross_revenue - cleaning_fee`
to Accommodation Revenue when positive and a credit of `cleaning_fee` to
Cleaning Revenue when positive — and hands them to `create_journal_entry`
as a `source='booking'` entry dated on the check-in with `source_id` the
booking id. -/
theorem c7_booking_journal (year bid : Nat) (db : DB) (b : Booking)
    (aRecv aRev aClean aComm : Account)
    (hb : db.bookings.find? (fun x => x.id == bid) = some b)
    (hdup : db.entries.find?
      (fun je => je.source == "booking" && je.source_id == some bid) = none)
    (hRecv : get_account_by_code db "1201" = .ok aRecv)
    (hRev : get_account_by_code db "4101" = .ok aRev)
    (hClean : get_account_by_code db "4102" = .ok aClean)
    (hComm : get_account_by_code db "5101" = .ok aComm) :
    (booking_journal_lines aRecv aRev aClean aComm b bid).map
        (fun l => (l.account_id, l.debit, l.credit)) =
      [(aRecv.id, pyOrI b.gross_revenue 0 - pyOrI b.platform_commission 0, 0)] ++
      (if 0 < pyOrI b.platform_commission 0 then
        [(aComm.id, pyOrI b.platform_commission 0, 0)] else []) ++
      (if 0 < pyOrI b.gross_revenue 0 - pyOrI b.cleaning_fee 0 then
        [(aRev.id, 0, pyOrI b.gross_revenue 0 - pyOrI b.cleaning_fee 0)] else []) ++
      (if 0 < pyOrI b.cleaning_fee 0 then
        [(aClean.id, 0, pyOrI b.cleaning_fee 0)] else []) ∧
    generate_booking_journal year bid db =
      create_journal_entry year
        { entry_date := b.check_in
          source := "booking"
          source_id := some bid
          description := "Booking: " ++ pyStr b.guest_name ++ " (" ++
            toString b.check_in ++ " to " ++ toString b.check_out ++ ")"
          lines := booking_journal_lines aRecv aRev aClean aComm b bid } db := by
  constructor
  · simp only [booking_journal_lines]
    split_ifs <;> rfl
  · exact generate_booking_journal_eq year bid db b aRecv aRev aClean aComm
      hb hdup hRecv hRev hClean hComm

/-- Witness for `c7_booking_journal`: the scenario booking (1000 gross, 150
commission, 100 cleaning) persists debit Receivable 850, debit Commission
150, credit Accommodation Revenue 900, credit Cleaning Revenue 100, with
total debit = total credit = 1000. -/
theorem c7_booking_journal_witness :
    (booking_journal_lines
        { id := 21, code := "1201", name := "OTA Receivables", account_type := "asset" }
        { id := 22, code := "4101", name := "Nightly Rate Revenue",
          account_type := "revenue" }
        { id := 23, code := "4102", name := "Cleaning Fee Revenue",
          account_type := "revenue" }
        { id := 24, code := "5101", name := "Airbnb Commission", account_type := "expense" }
        { id := 50, property_id := 3, guest_name := some "Bob", check_in := 10,
          check_out := 15, nights := some 5, gross_revenue := some 1000,
          cleaning_fee := some 100, platform_commission := some 150 } 50).map
        (fun l => (l.account_id, l.debit, l.credit)) =
      [(21, 850, 0), (24, 150, 0), (22, 0, 900), (23, 0, 100)] ∧
    c7run = some ([(21, 850, 0), (24, 150, 0), (22, 0, 900), (23, 0, 100)], 1000, 1000) :=
  ⟨((c7_booking_journal 2025 50 c7db
      { id := 50, property_id := 3, guest_name := some "Bob", check_in := 10,
        check_out := 15, nights := some 5, gross_revenue := some 1000,
        cleaning_fee := some 100, platform_commission := some 150 }
      { id := 21, code := "1201", name := "OTA Receivables", account_type := "asset" }
      { id := 22, code := "4101", name := "Nightly Rate Revenue", account_type := "revenue" }
      { id := 23, code := "4102", name := "Cleaning Fee Revenue", account_type := "revenue" }
      { id := 24, code := "5101", name := "Airbnb Commission", account_type := "expense" }
      (by decide) (by decide) rfl rfl rfl rfl).1).trans (by decide),
   by decide⟩

/-- C10 (amended, proved): for a booking with `cleaning_fee > gross_revenue
> 0 ≥` — amended to also require `platform_commission ≥ 0`, which the
counterexample shows is needed — the derived line set omits the
Accommodation Revenue line while still crediting the full cleaning fee,
its debits total `gross_revenue` while its credits total `cleaning_fee`,
so balance validation fails and no journal entry is persisted. -/
theorem c10_unbalanced_booking_amended (year bid : Nat) (db : DB) (b : Booking)
    (aRecv aRev aClean aComm : Account)
    (hb : db.bookings.find? (fun x => x.id == bid) = some b)
    (hdup : db.entries.find?
      (fun je => je.source == "booking" && je.source_id == some bid) = none)
    (hRecv : get_account_by_code db "1201" = .ok aRecv)
    (hRev : get_account_by_code db "4101" = .ok aRev)
    (hClean : get_account_by_code db "4102" = .ok aClean)
    (hComm : get_account_by_code db "5101" = .ok aComm)
    (hcomm : 0 ≤ pyOrI b.platform_commission 0)
    (hgl : pyOrI b.gross_revenue 0 < pyOrI b.cleaning_fee 0)
    (hcl : 0 < pyOrI b.cleaning_fee 0) :
    (booking_journal_lines aRecv aRev aClean aComm b bid).map
        (fun l => (l.account_id, l.debit, l.credit)) =
      [(aRecv.id, pyOrI b.gross_revenue 0 - pyOrI b.platform_commission 0, 0)] ++
      (if 0 < pyOrI b.platform_commission 0 then
        [(aComm.id, pyOrI b.platform_commission 0, 0)] else []) ++
      [(aClean.id, 0, pyOrI b.cleaning_fee 0)] ∧
    ((booking_journal_lines aRecv aRev aClean aComm b bid).map (fun l => l.debit)).sum =
      pyOrI b.gross_revenue 0 ∧
    ((booking_journal_lines aRecv aRev aClean aComm b bid).map (fun l => l.credit)).sum =
      pyOrI b.cleaning_fee 0 ∧
    generate_booking_journal year bid db =
      .error (.badRequest "Journal entry must balance (debits = credits)") := by
  have hacc : ¬ (0 < pyOrI b.gross_revenue 0 - pyOrI b.cleaning_fee 0) := by omega
  have hshape : (booking_journal_lines aRecv aRev aClean aComm b bid).map
        (fun l => (l.account_id, l.debit, l.credit)) =
      [(aRecv.id, pyOrI b.gross_revenue 0 - pyOrI b.platform_commission 0, 0)] ++
      (if 0 < pyOrI b.platform_commission 0 then
        [(aComm.id, pyOrI b.platform_commission 0, 0)] else []) ++
      [(aClean.id, 0, pyOrI b.cleaning_fee 0)] := by
    simp only [booking_journal_lines, if_neg hacc, if_pos hcl]
    split_ifs <;> rfl
  have hdsum : ((booking_journal_lines aRecv aRev aClean aComm b bid).map
      (fun l => l.debit)).sum = pyOrI b.gross_revenue 0 := by
    simp only [booking_journal_lines, if_neg hacc, if_pos hcl]
    by_cases hc : 0 < pyOrI b.platform_commission 0
    · simp only [if_pos hc, List.map_append, List.sum_append, List.map_cons, List.map_nil]
      simp
    · simp only [if_neg hc, List.map_append, List.sum_append, List.map_cons, List.map_nil]
      simp
      omega
  have hcsum : ((booking_journal_lines aRecv aRev aClean aComm b bid).map
      (fun l => l.credit)).sum = pyOrI b.cleaning_fee 0 := by
    simp only [booking_journal_lines, if_neg hacc, if_pos hcl]
    by_cases hc : 0 < pyOrI b.platform_commission 0
    · simp only [if_pos hc, List.map_append, List.sum_append, List.map_cons, List.map_nil]
      simp
    · simp only [if_neg hc, List.map_append, List.sum_append, List.map_cons, List.map_nil]
      simp
  refine ⟨hshape, hdsum, hcsum, ?_⟩
  rw [generate_booking_journal_eq year bid db b aRecv aRev aClean aComm
    hb hdup hRecv hRev hClean hComm]
  have hval : validate_journal_balance
      (booking_journal_lines aRecv aRev aClean aComm b bid) = false := by
    simp only [validate_journal_balance, hdsum, hcsum, beq_eq_false_iff_ne, ne_eq]
    omega
  simp [create_journal_entry, hval]

/-- Witness for `c10_unbalanced_booking_amended`: gross 80, commission 30,
cleaning 100 — the accommodation line is omitted, debits total 80, credits
total 100, and the rule fails the balance validation. -/
theorem c10_unbalanced_booking_amended_witness :
    generate_booking_journal 2025 50
      { accounts := bookingAccounts
        bookings := [{ id := 50, property_id := 3, guest_name := some "Bob",
                       check_in := 10, check_out := 15, nights := some 5,
                       gross_revenue := some 80, cleaning_fee := some 100,
                       platform_commission := some 30 }]
        nextId := 100 } =
      .error (.badRequest "Journal entry must balance (debits = credits)") :=
  (c10_unbalanced_booking_amended 2025 50
    { accounts := bookingAccounts
      bookings := [{ id := 50, property_id := 3, guest_name := some "Bob",
                     check_in := 10, check_out := 15, nights := some 5,
                     gross_revenue := some 80, cleaning_fee := some 100,
                     platform_commission := some 30 }]
      nextId := 100 }
    { id := 50, property_id := 3, guest_name := some "Bob", check_in := 10,
      check_out := 15, nights := some 5, gross_revenue := some 80,
      cleaning_fee := some 100, platform_commission := some 30 }
    { id := 21, code := "1201", name := "OTA Receivables", account_type := "asset" }
    { id := 22, code := "4101", name := "Nightly Rate Revenue", account_type := "revenue" }
    { id := 23, code := "4102", name := "Cleaning Fee Revenue", account_type := "revenue" }
    { id := 24, code := "5101", name := "Airbnb Commission", account_type := "expense" }
    (by decide) (by decide) rfl rfl rfl rfl (by decide) (by decide) (by decide)).2.2.2

/-- Binding a successful `Except` just applies the continuation. -/
theorem exc_ok_bind {α β : Type} (a : α) (f : α → Except ApiError β) :
    (Except.ok a >>= f) = f a := rfl

/-- Inversion: a successful `create_journal_entry` committed exactly the
built entry and lines on top of the previous state. -/
theorem create_journal_entry_ok {year : Nat} {ed : JournalEntryCreate} {db db' : DB}
    {eid : Nat} (h : create_journal_entry year ed db = .ok (db', eid)) :
    db' = { db with
            entries := db.entries ++ [created_entry year ed db]
            lines := db.lines ++ created_lines ed db
            nextId := db.nextId + 1 + ed.lines.length } ∧ eid = db.nextId := by
  unfold create_journal_entry at h
  split at h
  · exact absurd h (by simp)
  · split at h
    · exact absurd h (by simp)
    · split at h
      · exact absurd h (by simp)
      · simp only [Except.ok.injEq, Prod.mk.injEq] at h
        exact ⟨h.1.symm, h.2.symm⟩

/-- C4 (amended, proved): the booking and expense rules check idempotency
first — when a journal entry with the triggering `(source, source_id)`
pair exists, they fail with an HTTP 400 duplicate error and create
nothing, so a second run for the same booking leaves exactly the one
entry; the deposit-transaction rule, by contrast, performs no such check:
every successful call appends one more journal entry carrying the
`(source='adjustment', source_id=tenancy)` pair. -/
theorem c4_autoposting_idempotency_amended (year year2 : Nat) (db : DB) :
    (∀ bid b, db.bookings.find? (fun x => x.id == bid) = some b →
      (∃ je ∈ db.entries, je.source = "booking" ∧ je.source_id = some bid) →
      ∃ msg, generate_booking_journal year bid db = .error (.badRequest msg)) ∧
    (∀ eid ex, db.expenses.find? (fun x => x.id == eid) = some ex →
      (∃ je ∈ db.entries, je.source = "expense" ∧ je.source_id = some eid) →
      ∃ msg, generate_expense_journal year eid db = .error (.badRequest msg)) ∧
    (∀ bid b aRecv aRev aClean aComm db' eid2,
      db.bookings.find? (fun x => x.id == bid) = some b →
      db.entries.find? (fun je => je.source == "booking" && je.source_id == some bid) =
        none →
      get_account_by_code db "1201" = .ok aRecv →
      get_account_by_code db "4101" = .ok aRev →
      get_account_by_code db "4102" = .ok aClean →
      get_account_by_code db "5101" = .ok aComm →
      generate_booking_journal year bid db = .ok (db', eid2) →
      ∃ msg, generate_booking_journal year2 bid db' = .error (.badRequest msg)) ∧
    (∀ (tx : DepositTransactionCreate) t p a1 a2 a3 (uid : Nat),
      db.tenancies.find? (fun x => x.id == tx.tenancy_id) = some t →
      db.properties.find? (fun x => x.id == t.property_id) = some p →
      get_account_by_code db "1102" = .ok a1 →
      get_account_by_code db "2302" = .ok a2 →
      get_account_by_code db "4301" = .ok a3 →
      (tx.transaction_type = "received" ∨ tx.transaction_type = "refund" ∨
        tx.transaction_type = "deduction") →
      ∃ db' s, create_deposit_transaction year tx uid db = .ok (db', s) ∧
        db'.entries.countP (fun e2 => e2.source == "adjustment" &&
          e2.source_id == some tx.tenancy_id) =
        db.entries.countP (fun e2 => e2.source == "adjustment" &&
          e2.source_id == some tx.tenancy_id) + 1) := by
  refine ⟨?_, ?_, ?_, ?_⟩
  · intro bid b hb hdup
    rcases hdup with ⟨je, hje, hs1, hs2⟩
    have hsome : (db.entries.find?
        (fun je => je.source == "booking" && je.source_id == some bid)).isSome = true :=
      List.find?_isSome.mpr ⟨je, hje, by simp [hs1, hs2]⟩
    cases hfd : db.entries.find?
        (fun je => je.source == "booking" && je.source_id == some bid) with
    | none => rw [hfd] at hsome; exact absurd hsome (by simp)
    | some ex => exact ⟨"Journal entry already exists: " ++ ex.entry_number,
        by simp [generate_booking_journal, hb, hfd, exc_ok_bind]⟩
  · intro eid ex hex hdup
    rcases hdup with ⟨je, hje, hs1, hs2⟩
    have hsome : (db.entries.find?
        (fun je => je.source == "expense" && je.source_id == some eid)).isSome = true :=
      List.find?_isSome.mpr ⟨je, hje, by simp [hs1, hs2]⟩
    cases hfd : db.entries.find?
        (fun je => je.source == "expense" && je.source_id == some eid) with
    | none => rw [hfd] at hsome; exact absurd hsome (by simp)
    | some e2 => exact ⟨"Journal entry already exists: " ++ e2.entry_number,
        by simp [generate_expense_journal, hex, hfd, exc_ok_bind]⟩
  · intro bid b aRecv aRev aClean aComm db' eid2 hb hdup h1 h2 h3 h4 hok
    rw [generate_booking_journal_eq year bid db b aRecv aRev aClean aComm
      hb hdup h1 h2 h3 h4] at hok
    obtain ⟨hdb', -⟩ := create_journal_entry_ok hok
    subst hdb'
    have hdup2 : ∃ ex2, ({ db with
        entries := db.entries ++ [created_entry year
          { entry_date := b.check_in
            source := "booking"
            source_id := some bid
            description := "Booking: " ++ pyStr b.guest_name ++ " (" ++
              toString b.check_in ++ " to " ++ toString b.check_out ++ ")"
            lines := booking_journal_lines aRecv aRev aClean aComm b bid } db]
        lines := db.lines ++ created_lines
          { entry_date := b.check_in
            source := "booking"
            source_id := some bid
            description := "Booking: " ++ pyStr b.guest_name ++ " (" ++
              toString b.check_in ++ " to " ++ toString b.check_out ++ ")"
            lines := booking_journal_lines aRecv aRev aClean aComm b bid } db
        nextId := db.nextId + 1 +
          (booking_journal_lines aRecv aRev aClean aComm b bid).length } : DB).entries.find?
        (fun je => je.source == "booking" && je.source_id == some bid) = some ex2 := by
      show ∃ ex2, (db.entries ++ [created_entry year
          { entry_date := b.check_in
            source := "booking"
            source_id := some bid
            description := "Booking: " ++ pyStr b.guest_name ++ " (" ++
              toString b.check_in ++ " to " ++ toString b.check_out ++ ")"
            lines := booking_journal_lines aRecv aRev aClean aComm b bid } db]).find?
          (fun je => je.source == "booking" && je.source_id == some bid) = some ex2
      rw [List.find?_append]
      cases hfl : db.entries.find?
          (fun je => je.source == "booking" && je.source_id == some bid) with
      | some e2 => exact ⟨e2, by rw [Option.or_some]⟩
      | none =>
        refine ⟨created_entry year
          { entry_date := b.check_in
            source := "booking"
            source_id := some bid
            description := "Booking: " ++ pyStr b.guest_name ++ " (" ++
              toString b.check_in ++ " to " ++ toString b.check_out ++ ")"
            lines := booking_journal_lines aRecv aRev aClean aComm b bid } db, ?_⟩
        rw [Option.none_or]
        exact List.find?_cons_of_pos _ (by simp [created_entry])
    rcases hdup2 with ⟨ex2, hex2⟩
    exact ⟨"Journal entry already exists: " ++ ex2.entry_number,
      by simp [generate_booking_journal, hb, hex2, exc_ok_bind]⟩
  · intro tx t p a1 a2 a3 uid ht hp h1 h2 h3 hty
    have htid : t.id = tx.tenancy_id := by
      have h := List.find?_some ht
      simpa using h
    have hcnt : ∀ desc jls,
        (deposit_result year tx db t p desc jls).entries.countP
          (fun e2 => e2.source == "adjustment" && e2.source_id == some tx.tenancy_id) =
        db.entries.countP (fun e2 => e2.source == "adjustment" &&
          e2.source_id == some tx.tenancy_id) + 1 := by
      intro desc jls
      show (db.entries ++ [deposit_journal_entry year tx db t desc]).countP _ = _
      rw [List.countP_append]
      simp [List.countP_cons, deposit_journal_entry, htid]
    rcases hty with hty | hty | hty
    · have hb1 : (tx.transaction_type == "received") = true := by rw [hty]; rfl
      refine ⟨deposit_result year tx db t p
          ("Security deposit received - " ++ t.tenant_name)
          [(a1.id, tx.amount, 0, "Deposit received from " ++ t.tenant_name),
           (a2.id, 0, tx.amount, "Security deposit held for " ++ t.tenant_name)],
        generate_journal_number year db, ?_, hcnt _ _⟩
      simp only [create_deposit_transaction, ht, h1, h2, h3, hb1, exc_ok_bind, if_true,
        eq_self_iff_true, ite_true, hp]
    · have hb0 : (tx.transaction_type == "received") = false := by rw [hty]; rfl
      have hb1 : (tx.transaction_type == "refund") = true := by rw [hty]; rfl
      refine ⟨deposit_result year tx db t p
          ("Security deposit refund - " ++ t.tenant_name)
          [(a2.id, tx.amount, 0, "Deposit refund to " ++ t.tenant_name),
           (a1.id, 0, tx.amount, "Deposit refund paid")],
        generate_journal_number year db, ?_, hcnt _ _⟩
      simp only [create_deposit_transaction, ht, h1, h2, h3, hb0, hb1, exc_ok_bind,
        if_true, eq_self_iff_true, ite_true, Bool.false_eq_true, if_false, ite_false, hp]
    · have hb0 : (tx.transaction_type == "received") = false := by rw [hty]; rfl
      have hb0' : (tx.transaction_type == "refund") = false := by rw [hty]; rfl
      have hb1 : (tx.transaction_type == "deduction") = true := by rw [hty]; rfl
      refine ⟨deposit_result year tx db t p
          ("Security deposit deduction (" ++
            pyStr (pyOrS tx.deduction_reason (some "other")) ++ ") - " ++ t.tenant_name)
          [(a2.id, tx.amount, 0, "Deposit deduction - " ++
             pyStr (pyOrS tx.deduction_reason (some "other"))),
           (a3.id, 0, tx.amount, "Deposit forfeiture income - " ++
             pyStr (pyOrS tx.deduction_reason (some "other")))],
        generate_journal_number year db, ?_, hcnt _ _⟩
      simp only [create_deposit_transaction, ht, h1, h2, h3, hb0, hb0', hb1, exc_ok_bind,
        if_true, eq_self_iff_true, ite_true, Bool.false_eq_true, if_false, ite_false, hp]

/-- Witness for `c4_autoposting_idempotency_amended` on `c4wdb`: re-running
the booking and expense rules for entities that already have journal
entries fails; running the booking rule for booking 51 succeeds once and
fails the second time; one deposit transaction adds one more
`(adjustment, 7)` entry. -/
theorem c4_autoposting_idempotency_amended_witness :
    (∃ msg, generate_booking_journal 2025 50 c4wdb = .error (.badRequest msg)) ∧
    (∃ msg, generate_expense_journal 2025 60 c4wdb = .error (.badRequest msg)) ∧
    generate_booking_journal 2025 51 c4wdb = .ok (c4wdb2, 100) ∧
    (∃ msg, generate_booking_journal 2026 51 c4wdb2 = .error (.badRequest msg)) ∧
    create_deposit_transaction 2025 c4wtx 1 c4wdb = .ok (c4wdbDep, c4wnum) ∧
    c4wdbDep.entries.countP (fun e2 => e2.source == "adjustment" &&
        e2.source_id == some 7) =
      c4wdb.entries.countP (fun e2 => e2.source == "adjustment" &&
        e2.source_id == some 7) + 1 := by
  have main := c4_autoposting_idempotency_amended 2025 2026 c4wdb
  refine ⟨?_, ?_, rfl, ?_, rfl, ?_⟩
  · exact main.1 50
      { id := 50, property_id := 3, guest_name := some "Bob", check_in := 10,
        check_out := 15, nights := some 5, gross_revenue := some 1000,
        cleaning_fee := some 100, platform_commission := some 150 }
      (by decide)
      ⟨{ id := 1, entry_number := "JE-2025-00001", entry_date := 10, source := "booking",
         source_id := some 50, description := "earlier booking journal" },
       by decide, rfl, rfl⟩
  · exact main.2.1 60
      { id := 60, property_id := 3, expense_date := 2, vendor := some "V",
        amount := 100, vat_amount := some 0, total_amount := some 100 }
      (by decide)
      ⟨{ id := 2, entry_number := "JE-2025-00002", entry_date := 2, source := "expense",
         source_id := some 60, description := "earlier expense journal" },
       by decide, rfl, rfl⟩
  · exact main.2.2.1 51
      { id := 51, property_id := 3, guest_name := some "Eve", check_in := 1,
        check_out := 3, nights := some 2, gross_revenue := some 500,
        cleaning_fee := some 0, platform_commission := some 50 }
      { id := 21, code := "1201", name := "OTA Receivables", account_type := "asset" }
      { id := 22, code := "4101", name := "Nightly Rate Revenue", account_type := "revenue" }
      { id := 23, code := "4102", name := "Cleaning Fee Revenue", account_type := "revenue" }
      { id := 24, code := "5101", name := "Airbnb Commission", account_type := "expense" }
      c4wdb2 100 (by decide) (by decide) rfl rfl rfl rfl rfl
  · obtain ⟨db', s, hok, hcnt⟩ := main.2.2.2 c4wtx
      { id := 7, property_id := 3, tenant_name := "Alice", security_deposit := some 2000 }
      { id := 3, name := "Unit 1" }
      { id := 31, code := "1102", name := "CBD Bank", account_type := "asset" }
      { id := 32, code := "2302", name := "Tenant Security Deposits",
        account_type := "liability" }
      { id := 33, code := "4301", name := "Deposit Forfeitures", account_type := "revenue" }
      1 (by decide) (by decide) rfl rfl rfl (Or.inl rfl)
    have hco : create_deposit_transaction 2025 c4wtx 1 c4wdb = .ok (c4wdbDep, c4wnum) := rfl
    rw [hco] at hok
    simp only [Except.ok.injEq, Prod.mk.injEq] at hok
    obtain ⟨hdb, -⟩ := hok
    rw [← hdb] at hcnt
    exact hcnt
